import Mathlib

/-!
Shallow embedding of the mcp-server-for-soc-ofbiz tool handlers.

The repository's tool handlers are TypeScript functions that issue a short
chain of HTTP calls against an ERP backend and return a two-variant result
envelope.  We embed each handler as a pure Lean function from

  * the server configuration,
  * the request-scoped delegated token (`request.authInfo?.downstreamToken`),
  * the tool input arguments, and
  * a backend oracle (the pre-determined outcome of each fetch the handler
    can make, in program order)

to the returned tool result paired with the ordered trace of outbound
backend calls actually issued.  JavaScript truthiness on possibly-undefined
string fields is modelled on `Option String` (`none` = undefined), and
thrown/caught exceptions are modelled with `Except String`.
-/

/-- JavaScript truthiness of a possibly-undefined string value:
`undefined` and the empty string are falsy. -/
def jsTruthy : Option String → Bool
  | none => false
  | some s => !s.isEmpty

/-- JavaScript `x || ''` for a possibly-undefined string. -/
def jsOrEmpty : Option String → String
  | none => ""
  | some s => s

/-- JavaScript `x || y` on possibly-undefined strings: the first operand if
truthy, otherwise the second. -/
def jsOr (a b : Option String) : Option String :=
  if jsTruthy a then a else b

/-- JavaScript `x || undefined`: collapses a falsy value to `undefined`. -/
def orUndef (o : Option String) : Option String :=
  if jsTruthy o then o else none

/-- JavaScript string interpolation of a possibly-undefined value:
`undefined` renders as the literal string "undefined". -/
def jsToStr : Option String → String
  | none => "undefined"
  | some s => s

/-- Server configuration (`ServerConfig` in src/lib/config/types):
`BACKEND_ACCESS_TOKEN` and `BACKEND_USER_AGENT` may be absent. -/
structure ServerConfig where
  BACKEND_API_BASE : String
  BACKEND_ACCESS_TOKEN : Option String
  BACKEND_USER_AGENT : Option String
deriving Repr, DecidableEq

/-- The `Authorization` value produced by the ternary used in getContent,
findOrderItems, findProductById and the other tools of that style:
always a string, empty when no token is available. -/
def ternaryAuth (dt cfgTok : Option String) : String :=
  if jsTruthy dt then "Bearer " ++ jsOrEmpty dt
  else if jsTruthy cfgTok then "Bearer " ++ jsOrEmpty cfgTok
  else ""

/-- The `Authorization` header of getLogById / getLogConfig: the key is only
added when one of the tokens is truthy, otherwise absent. -/
def condAuth (dt cfgTok : Option String) : Option String :=
  if jsTruthy dt then some ("Bearer " ++ jsOrEmpty dt)
  else if jsTruthy cfgTok then some ("Bearer " ++ jsOrEmpty cfgTok)
  else none

/-- A raw backend record (`docs` element).  The backend returns untyped JSON
mappings; we model one record type carrying every field any embedded handler
reads, each possibly undefined. -/
structure Doc where
  contentId : Option String := none
  dataResourceId : Option String := none
  contentName : Option String := none
  mimeTypeId : Option String := none
  dataResourceTypeId : Option String := none
  objectInfo : Option String := none
  textData : Option String := none
  logId : Option String := none
  configId : Option String := none
  ownerPartyId : Option String := none
  uploadFileContentId : Option String := none
  exportFileContentId : Option String := none
  logTypeEnumId : Option String := none
  createdByUserLogin : Option String := none
  createdDate : Option String := none
  startDateTime : Option String := none
  finishDateTime : Option String := none
  cancelDateTime : Option String := none
  jobId : Option String := none
  statusId : Option String := none
  errorRecordContentId : Option String := none
  logFileContentId : Option String := none
  runtimeDataId : Option String := none
  createdByJobId : Option String := none
  productStoreId : Option String := none
  productId : Option String := none
  productName : Option String := none
  internalName : Option String := none
  description : Option String := none
  productTypeId : Option String := none
  isVirtual : Option String := none
  isVariant : Option String := none
  orderId : Option String := none
  orderItemSeqId : Option String := none
  itemDescription : Option String := none
  quantity : Option String := none
  unitPrice : Option String := none
deriving Repr, DecidableEq

/-- Response of a performFind POST: HTTP ok flag, numeric status, and the
decoded `docs` field (absent when the JSON body has no `docs`). -/
structure FindResp where
  ok : Bool
  status : Nat
  docs : Option (List Doc)
deriving Repr, DecidableEq

/-- Response of a raw GET download: HTTP ok flag, numeric status, text body. -/
structure RawResp where
  ok : Bool
  status : Nat
  body : String
deriving Repr, DecidableEq

/-- An outbound backend call as recorded in the trace: either a performFind
POST (entity name, inputFields, viewSize, Authorization header value, user
agent) or a raw GET (url, Authorization header value, user agent).
`authorization = none` means the header key is not present on the request at
all; `authorization = some ""` means the key is present with empty value. -/
inductive BackendCall where
  | find (entityName : String) (inputFields : List (String × String))
      (viewSize : Nat) (authorization : Option String) (userAgent : String)
  | rawGet (url : String) (authorization : Option String) (userAgent : String)
deriving Repr, DecidableEq

/-- The Authorization header attached to a recorded call. -/
def BackendCall.auth : BackendCall → Option String
  | .find _ _ _ a _ => a
  | .rawGet _ a _ => a

/-- One item of the `content` list of a tool result. -/
structure ContentItem where
  type : String
  text : String
deriving Repr, DecidableEq

/-- The uniform result envelope: `content`, an optional `structuredContent`
payload, and the `isError` flag (absent in JS modelled as `false`). -/
structure ToolResult (σ : Type) where
  content : List ContentItem
  structuredContent : Option σ
  isError : Bool
deriving Repr, DecidableEq

/-- A result is exactly one of the two declared variants: an error with no
structured payload, or a success with a structured payload and no error
flag. -/
def exactlyOneVariant {σ : Type} (r : ToolResult σ) : Prop :=
  (r.isError = true ∧ r.structuredContent = none) ∨
  (r.isError = false ∧ r.structuredContent.isSome = true)

/-- Shorthand for a single-item text content list. -/
def titem (s : String) : List ContentItem :=
  [{ type := "text", text := s }]

/-- The error-variant result with one text item. -/
def errRes {σ : Type} (s : String) : ToolResult σ :=
  { content := titem s, structuredContent := none, isError := true }

/-- The outer catch clause of the getContent / findOrderItems /
findProductById handlers: `Error: ${message}`. -/
def catchRes {σ : Type} (msg : String) : ToolResult σ :=
  errRes ("Error: " ++ msg)

/-- Structured output of getContent (all three variants; `savedPath` is only
ever set by the persistence variant). -/
structure GetContentStructured where
  contentId : String
  dataResourceId : Option String
  textData : Option String
  mimeType : Option String
  savedPath : Option String := none
deriving Repr, DecidableEq

/-- Input of getContent: `configId` and `category` only exist on the
download/persistence variants. -/
structure GetContentArgs where
  contentId : String
  configId : Option String := none
  category : Option String := none
deriving Repr, DecidableEq

/-- Backend oracle for one getContent invocation: the outcome of each fetch
the handler can make, in program order.  `Except.error e` models the fetch
promise rejecting with message `e`. -/
structure GetContentBackend where
  contentResp : Except String FindResp
  drResp : Except String FindResp
  etResp : Except String FindResp
  rawResp : Except String RawResp

/-- The performFind call record shared by the getContent variants:
entity name, filters, viewSize 1, the ternary-style Authorization value, and
the configured user agent. -/
def gcFind (cfg : ServerConfig) (dt : Option String)
    (entity : String) (fields : List (String × String)) : BackendCall :=
  BackendCall.find entity fields 1
    (some (ternaryAuth dt cfg.BACKEND_ACCESS_TOKEN))
    (jsOrEmpty cfg.BACKEND_USER_AGENT)

/-- Tail of the src/src/tools/getContent.ts handler after the type branch
(lines 135-178): build the result record, unconditionally attempt the raw
GET against ViewBinaryDataResource (overwriting the text and the record's
textData when it succeeds), then fail when the final text is falsy,
otherwise return the success variant. -/
def srcTail (cfg : ServerConfig) (dt : Option String) (args : GetContentArgs)
    (b : GetContentBackend) (contentRecord : Doc) (drId : String)
    (textData0 : Option String) (tr : List BackendCall) :
    ToolResult GetContentStructured × List BackendCall :=
  let result0 : GetContentStructured :=
    { contentId := args.contentId
      dataResourceId := orUndef (some drId)
      textData := orUndef textData0
      mimeType := orUndef contentRecord.mimeTypeId }
  let c4 := BackendCall.rawGet
    (cfg.BACKEND_API_BASE ++ "/content/control/ViewBinaryDataResource?dataResourceId=" ++ drId)
    (some (ternaryAuth dt cfg.BACKEND_ACCESS_TOKEN))
    (jsOrEmpty cfg.BACKEND_USER_AGENT)
  let tr4 := tr ++ [c4]
  let step : Option String × GetContentStructured :=
    match b.rawResp with
    | .error _ => (textData0, result0)
    | .ok rr =>
      if rr.ok then (some rr.body, { result0 with textData := some rr.body })
      else (textData0, result0)
  if !jsTruthy step.1 then
    (errRes ("No ElectronicText or File found for dataResourceId: " ++ drId
        ++ " (Remote fetch attempted)"), tr4)
  else
    ({ content := titem (jsOrEmpty step.1)
       structuredContent := some step.2
       isError := false }, tr4)

/-- The handler of src/src/tools/getContent.ts: resolves a content id to
text.  For inline text types it queries ElectronicText; for file-backed
types it returns remote-file metadata immediately; in the remaining flow it
always attempts a raw GET against ViewBinaryDataResource, overwriting the
typed text when that fetch succeeds.  Returns the tool result and the
ordered trace of outbound calls. -/
def getContentSrc (cfg : ServerConfig) (dt : Option String)
    (args : GetContentArgs) (b : GetContentBackend) :
    ToolResult GetContentStructured × List BackendCall :=
  let c1 := gcFind cfg dt "Content" [("contentId", args.contentId)]
  match b.contentResp with
  | .error e => (catchRes e, [c1])
  | .ok r1 =>
    if !r1.ok then
      (catchRes ("Failed to fetch Content: " ++ toString r1.status), [c1])
    else
      match r1.docs with
      | none => (errRes ("Content not found: " ++ args.contentId), [c1])
      | some [] => (errRes ("Content not found: " ++ args.contentId), [c1])
      | some (contentRecord :: _) =>
        if !jsTruthy contentRecord.dataResourceId then
          (errRes ("No dataResourceId for Content: " ++ args.contentId), [c1])
        else
          let drId := jsOrEmpty contentRecord.dataResourceId
          let c2 := gcFind cfg dt "DataResource" [("dataResourceId", drId)]
          match b.drResp with
          | .error e => (catchRes e, [c1, c2])
          | .ok r2 =>
            if !r2.ok then
              (catchRes ("Failed to fetch DataResource: " ++ toString r2.status), [c1, c2])
            else
              match r2.docs with
              | none => (errRes ("DataResource not found for ID: " ++ drId), [c1, c2])
              | some [] => (errRes ("DataResource not found for ID: " ++ drId), [c1, c2])
              | some (dr :: _) =>
                let dataResourceTypeId := dr.dataResourceTypeId
                if dataResourceTypeId == some "ELECTRONIC_TEXT"
                    || dataResourceTypeId == some "SHORT_TEXT" then
                  let c3 := gcFind cfg dt "ElectronicText" [("dataResourceId", drId)]
                  match b.etResp with
                  | .error e => (catchRes e, [c1, c2, c3])
                  | .ok r3 =>
                    let textData0 : Option String :=
                      if r3.ok then
                        match r3.docs with
                        | some (d :: _) => d.textData
                        | _ => some ""
                      else some ""
                    srcTail cfg dt args b contentRecord drId textData0 [c1, c2, c3]
                else if dataResourceTypeId == some "OFBIZ_FILE"
                    || dataResourceTypeId == some "LOCAL_FILE" then
                  let objectInfo := if jsTruthy dr.objectInfo then jsOrEmpty dr.objectInfo
                    else "Unknown Path"
                  ({ content := titem ("[REMOTE FILE LOG]\nID: " ++ args.contentId
                       ++ "\nName: " ++ (if jsTruthy contentRecord.contentName then
                            jsOrEmpty contentRecord.contentName else "Unknown")
                       ++ "\nType: " ++ jsToStr dataResourceTypeId
                       ++ "\nRemote Path: " ++ objectInfo
                       ++ "\nMimeType: " ++ (if jsTruthy contentRecord.mimeTypeId then
                            jsOrEmpty contentRecord.mimeTypeId else "N/A")
                       ++ "\n\nSTATUS: Content is stored as a file on the remote server disk.\nACTION: Automated retrieval unavailable (Service 'renderDataResourceAsText' not exported).\n       Please retrieve this file via SSH from the server path above.")
                     structuredContent := some
                       { contentId := args.contentId
                         dataResourceId := some drId
                         textData := some ("[Remote File: " ++ objectInfo ++ "]")
                         mimeType := orUndef contentRecord.mimeTypeId }
                     isError := false }, [c1, c2])
                else
                  srcTail cfg dt args b contentRecord drId (some "") [c1, c2]

/-- The guarded DownloadCsvFile fallback shared by the part_002 and part_003
variants (their lines 104-131 / 105-131): when the text so far is falsy,
issue an authenticated GET against DownloadCsvFile?contentId=... with token
`downstreamToken || BACKEND_ACCESS_TOKEN`, taking its body as the text when
it succeeds.  Returns the updated text and trace. -/
def dlFallback (cfg : ServerConfig) (dt : Option String) (args : GetContentArgs)
    (b : GetContentBackend) (textData0 : Option String) (tr : List BackendCall) :
    Option String × List BackendCall :=
  if !jsTruthy textData0 then
    let token := jsOr dt cfg.BACKEND_ACCESS_TOKEN
    let c4 := BackendCall.rawGet
      (cfg.BACKEND_API_BASE ++ "/api/DownloadCsvFile?contentId=" ++ args.contentId)
      (some ("Bearer " ++ jsToStr token)) (jsOrEmpty cfg.BACKEND_USER_AGENT)
    let textData1 :=
      match b.rawResp with
      | .error _ => textData0
      | .ok rr => if rr.ok then some rr.body else textData0
    (textData1, tr ++ [c4])
  else (textData0, tr)

/-- Tail of the part_002 variant after the type branch: guarded
DownloadCsvFile fallback, then the empty-text check and the success
return. -/
def dlTail (cfg : ServerConfig) (dt : Option String) (args : GetContentArgs)
    (b : GetContentBackend) (contentRecord : Doc) (drId : String)
    (dataResourceTypeId : Option String)
    (textData0 : Option String) (tr : List BackendCall) :
    ToolResult GetContentStructured × List BackendCall :=
  let dl := dlFallback cfg dt args b textData0 tr
  if !jsTruthy dl.1 then
    (errRes ("No text content found for contentId: " ++ args.contentId
        ++ " (Type: " ++ jsToStr dataResourceTypeId ++ ")"), dl.2)
  else
    ({ content := titem (jsOrEmpty dl.1)
       structuredContent := some
         { contentId := args.contentId
           dataResourceId := orUndef (some drId)
           textData := orUndef dl.1
           mimeType := orUndef contentRecord.mimeTypeId }
       isError := false }, dl.2)

/-- The getContent variant of src/unnamed/part_002: same Content →
DataResource → ElectronicText chain, but the raw download (GET
DownloadCsvFile?contentId=...) runs only when no text was obtained, and
there is no special branch for file-backed types. -/
def getContentDl (cfg : ServerConfig) (dt : Option String)
    (args : GetContentArgs) (b : GetContentBackend) :
    ToolResult GetContentStructured × List BackendCall :=
  let c1 := gcFind cfg dt "Content" [("contentId", args.contentId)]
  match b.contentResp with
  | .error e => (catchRes e, [c1])
  | .ok r1 =>
    if !r1.ok then
      (catchRes ("Failed to fetch Content: " ++ toString r1.status), [c1])
    else
      match r1.docs with
      | none => (errRes ("Content not found: " ++ args.contentId), [c1])
      | some [] => (errRes ("Content not found: " ++ args.contentId), [c1])
      | some (contentRecord :: _) =>
        if !jsTruthy contentRecord.dataResourceId then
          (errRes ("No dataResourceId for Content: " ++ args.contentId), [c1])
        else
          let drId := jsOrEmpty contentRecord.dataResourceId
          let c2 := gcFind cfg dt "DataResource" [("dataResourceId", drId)]
          match b.drResp with
          | .error e => (catchRes e, [c1, c2])
          | .ok r2 =>
            if !r2.ok then
              (catchRes ("Failed to fetch DataResource: " ++ toString r2.status), [c1, c2])
            else
              match r2.docs with
              | none => (errRes ("DataResource not found for ID: " ++ drId), [c1, c2])
              | some [] => (errRes ("DataResource not found for ID: " ++ drId), [c1, c2])
              | some (dr :: _) =>
                let dataResourceTypeId := dr.dataResourceTypeId
                if dataResourceTypeId == some "ELECTRONIC_TEXT"
                    || dataResourceTypeId == some "SHORT_TEXT" then
                  let c3 := gcFind cfg dt "ElectronicText" [("dataResourceId", drId)]
                  match b.etResp with
                  | .error e => (catchRes e, [c1, c2, c3])
                  | .ok r3 =>
                    let textData0 : Option String :=
                      if r3.ok then
                        match r3.docs with
                        | some (d :: _) => d.textData
                        | _ => some ""
                      else some ""
                    dlTail cfg dt args b contentRecord drId dataResourceTypeId
                      textData0 [c1, c2, c3]
                else
                  dlTail cfg dt args b contentRecord drId dataResourceTypeId
                    (some "") [c1, c2]

/-- Filesystem environment for the persistence variant of getContent:
the discovered `runtime` anchor directory (if any), whether the target
directory already exists, and the outcome of `fs.promises.mkdir` and
`fs.promises.writeFile` (rejections carry the error message). -/
structure FsEnv where
  runtimeDir : Option String
  targetDirExists : Bool
  mkdirResult : Except String Unit
  writeResult : Except String Unit

/-- File extension inferred from the content record's mime type
(part_003 lines 149-154). -/
def extFor (mime : Option String) : String :=
  if mime == some "text/csv" || mime == some "application/csv" then ".csv"
  else if mime == some "application/json" then ".json"
  else if mime == some "text/xml" || mime == some "application/xml" then ".xml"
  else if mime == some "application/pdf" then ".pdf"
  else ".txt"

/-- The persistence step of src/unnamed/part_003 (lines 140-197), run inside
the handler's outer try block: when a `configId` was supplied and the
runtime anchor was found, create the target directory if needed and write
the file; a mkdir or write rejection propagates (it is NOT caught locally).
Returns the saved path, `none` when persistence was skipped. -/
def persistStep (fs : FsEnv) (configId category : Option String)
    (contentId : String) (mime : Option String) : Except String (Option String) :=
  if jsTruthy configId then
    let cat := jsOrEmpty (jsOr category (some "uploaded"))
    let ext := extFor mime
    match fs.runtimeDir with
    | none => Except.ok none   -- anchor missing: log and skip, no failure
    | some rd =>
      let targetDir := rd ++ "/" ++ cat ++ "File_" ++ jsOrEmpty configId
      let mk : Except String Unit :=
        if !fs.targetDirExists then fs.mkdirResult else Except.ok ()
      match mk with
      | .error e => .error e
      | .ok _ =>
        let savedPath := targetDir ++ "/" ++ contentId ++ ext
        match fs.writeResult with
        | .error e => .error e
        | .ok _ => .ok (some savedPath)
  else Except.ok none

/-- Tail of the part_003 variant after the type branch: guarded
DownloadCsvFile fallback, empty-text check, persistence (whose rejections
reach the outer catch), and the success return. -/
def persistTail (cfg : ServerConfig) (dt : Option String) (args : GetContentArgs)
    (b : GetContentBackend) (fs : FsEnv) (contentRecord : Doc) (drId : String)
    (dataResourceTypeId : Option String)
    (textData0 : Option String) (tr : List BackendCall) :
    ToolResult GetContentStructured × List BackendCall :=
  let dl := dlFallback cfg dt args b textData0 tr
  if !jsTruthy dl.1 then
    (errRes ("No text content found for contentId: " ++ args.contentId
        ++ " (Type: " ++ jsToStr dataResourceTypeId ++ ")"), dl.2)
  else
    match persistStep fs args.configId args.category
        args.contentId contentRecord.mimeTypeId with
    | .error e => (catchRes e, dl.2)
    | .ok savedPath =>
      let text := jsOrEmpty dl.1
      ({ content := titem ("Content Retrieved.\n"
           ++ (if jsTruthy savedPath then
                "Saved to: " ++ jsOrEmpty savedPath ++ "\n" else "")
           ++ "\nPreview:\n" ++ text.take 500 ++ "...")
         structuredContent := some
           { contentId := args.contentId
             dataResourceId := orUndef (some drId)
             textData := orUndef dl.1
             mimeType := orUndef contentRecord.mimeTypeId
             savedPath := savedPath }
         isError := false }, dl.2)

/-- The getContent variant of src/unnamed/part_003: identical retrieval
chain to the part_002 variant, followed by best-effort-intended local
persistence whose mkdir/write rejections reach the handler's outer catch. -/
def getContentPersist (cfg : ServerConfig) (dt : Option String)
    (args : GetContentArgs) (b : GetContentBackend) (fs : FsEnv) :
    ToolResult GetContentStructured × List BackendCall :=
  let c1 := gcFind cfg dt "Content" [("contentId", args.contentId)]
  match b.contentResp with
  | .error e => (catchRes e, [c1])
  | .ok r1 =>
    if !r1.ok then
      (catchRes ("Failed to fetch Content: " ++ toString r1.status), [c1])
    else
      match r1.docs with
      | none => (errRes ("Content not found: " ++ args.contentId), [c1])
      | some [] => (errRes ("Content not found: " ++ args.contentId), [c1])
      | some (contentRecord :: _) =>
        if !jsTruthy contentRecord.dataResourceId then
          (errRes ("No dataResourceId for Content: " ++ args.contentId), [c1])
        else
          let drId := jsOrEmpty contentRecord.dataResourceId
          let c2 := gcFind cfg dt "DataResource" [("dataResourceId", drId)]
          match b.drResp with
          | .error e => (catchRes e, [c1, c2])
          | .ok r2 =>
            if !r2.ok then
              (catchRes ("Failed to fetch DataResource: " ++ toString r2.status), [c1, c2])
            else
              match r2.docs with
              | none => (errRes ("DataResource not found for ID: " ++ drId), [c1, c2])
              | some [] => (errRes ("DataResource not found for ID: " ++ drId), [c1, c2])
              | some (dr :: _) =>
                let dataResourceTypeId := dr.dataResourceTypeId
                if dataResourceTypeId == some "ELECTRONIC_TEXT"
                    || dataResourceTypeId == some "SHORT_TEXT" then
                  let c3 := gcFind cfg dt "ElectronicText" [("dataResourceId", drId)]
                  match b.etResp with
                  | .error e => (catchRes e, [c1, c2, c3])
                  | .ok r3 =>
                    let textData0 : Option String :=
                      if r3.ok then
                        match r3.docs with
                        | some (d :: _) => d.textData
                        | _ => some ""
                      else some ""
                    persistTail cfg dt args b fs contentRecord drId
                      dataResourceTypeId textData0 [c1, c2, c3]
                else
                  persistTail cfg dt args b fs contentRecord drId
                    dataResourceTypeId (some "") [c1, c2]

/-- Rendering stand-in for `JSON.stringify` on key/value data.  The handlers
embed stringified JSON only into human-readable diagnostic text; no claim
depends on the exact rendering, so we use a simple line-per-field form. -/
def renderKV (l : List (String × String)) : String :=
  String.intercalate "\n" (l.map (fun kv => kv.1 ++ ": " ++ kv.2))

/-- Structured output of getLogById: the 18 declared log fields, copied
verbatim from the backend record. -/
structure LogStructured where
  logId : Option String
  configId : Option String
  ownerPartyId : Option String
  uploadFileContentId : Option String
  exportFileContentId : Option String
  logTypeEnumId : Option String
  createdByUserLogin : Option String
  createdDate : Option String
  startDateTime : Option String
  finishDateTime : Option String
  cancelDateTime : Option String
  jobId : Option String
  statusId : Option String
  errorRecordContentId : Option String
  logFileContentId : Option String
  runtimeDataId : Option String
  createdByJobId : Option String
  productStoreId : Option String
deriving Repr, DecidableEq

/-- Projection of a raw log record into the declared output fields
(getLogById lines 102-121): verbatim copies. -/
def projectLog (log : Doc) : LogStructured :=
  { logId := log.logId
    configId := log.configId
    ownerPartyId := log.ownerPartyId
    uploadFileContentId := log.uploadFileContentId
    exportFileContentId := log.exportFileContentId
    logTypeEnumId := log.logTypeEnumId
    createdByUserLogin := log.createdByUserLogin
    createdDate := log.createdDate
    startDateTime := log.startDateTime
    finishDateTime := log.finishDateTime
    cancelDateTime := log.cancelDateTime
    jobId := log.jobId
    statusId := log.statusId
    errorRecordContentId := log.errorRecordContentId
    logFileContentId := log.logFileContentId
    runtimeDataId := log.runtimeDataId
    createdByJobId := log.createdByJobId
    productStoreId := log.productStoreId }

/-- Text rendering of the log payload for the success content item
(stand-in for `JSON.stringify(structuredContent)`). -/
def renderLog (s : LogStructured) : String :=
  renderKV [("logId", jsToStr s.logId), ("configId", jsToStr s.configId),
    ("statusId", jsToStr s.statusId),
    ("errorRecordContentId", jsToStr s.errorRecordContentId)]

/-- The handler of src/src/tools/getLogById.ts.  The Authorization header is
added conditionally (absent when neither token is truthy); a non-ok HTTP
status throws `HTTP error! status: N`, converted by the catch clause into
the error variant whose items are a DEBUG echo of the request and the
message `Error fetching DataManagerLog: ...`. -/
def getLogById (cfg : ServerConfig) (dt : Option String)
    (logId : String) (resp : Except String FindResp) :
    ToolResult LogStructured × List BackendCall :=
  let auth := condAuth dt cfg.BACKEND_ACCESS_TOKEN
  let ua := jsOrEmpty cfg.BACKEND_USER_AGENT
  let call := BackendCall.find "DataManagerLog" [("logId", logId)] 1 auth ua
  let catchR := fun (e : String) =>
    ({ content :=
        [ { type := "text", text := "DEBUG: URL: " ++ cfg.BACKEND_API_BASE
              ++ "/api/performFind\nHEADERS: "
              ++ renderKV ([("Content-Type", "application/json"),
                  ("User-Agent", ua), ("Accept", "application/json")]
                  ++ (match auth with
                      | some a => [("Authorization", a)]
                      | none => []))
              ++ "\nBODY: " ++ renderKV [("entityName", "DataManagerLog"),
                  ("logId", logId)] }
        , { type := "text", text := "Error fetching DataManagerLog: " ++ e } ]
       structuredContent := none
       isError := true } : ToolResult LogStructured)
  match resp with
  | .error e => (catchR e, [call])
  | .ok r =>
    if !r.ok then (catchR ("HTTP error! status: " ++ toString r.status), [call])
    else
      match r.docs.getD [] with
      | [] => (errRes ("No DataManagerLog found with ID: " ++ logId), [call])
      | log :: _ =>
        let s := projectLog log
        ({ content := titem (renderLog s)
           structuredContent := some s
           isError := false }, [call])

/-- One projected order item (findOrderItems lines 75-83): verbatim field
copies from the backend record. -/
structure ItemStructured where
  orderId : Option String
  orderItemSeqId : Option String
  productId : Option String
  itemDescription : Option String
  quantity : Option String
  unitPrice : Option String
  statusId : Option String
deriving Repr, DecidableEq

/-- Projection of a raw OrderItem record. -/
def projectItem (item : Doc) : ItemStructured :=
  { orderId := item.orderId
    orderItemSeqId := item.orderItemSeqId
    productId := item.productId
    itemDescription := item.itemDescription
    quantity := item.quantity
    unitPrice := item.unitPrice
    statusId := item.statusId }

/-- Structured output of findOrderItems: the item list. -/
structure OrderItemsStructured where
  items : List ItemStructured
deriving Repr, DecidableEq

/-- Text rendering of the item list (stand-in for `JSON.stringify`). -/
def renderItems (items : List ItemStructured) : String :=
  String.intercalate "\n" (items.map (fun i =>
    jsToStr i.orderItemSeqId ++ " " ++ jsToStr i.productId))

/-- The handler of src/src/tools/findOrderItems.ts.  A single OrderItem find
with viewSize 100; missing docs default to the empty list and an empty
result is a success with `items = []`.  The trace model does not record the
`orderBy: orderItemSeqId` body field. -/
def findOrderItems (cfg : ServerConfig) (dt : Option String)
    (orderId : String) (resp : Except String FindResp) :
    ToolResult OrderItemsStructured × List BackendCall :=
  let auth := ternaryAuth dt cfg.BACKEND_ACCESS_TOKEN
  let ua := jsOrEmpty cfg.BACKEND_USER_AGENT
  if orderId.isEmpty then
    (errRes "Error: orderId is required", [])
  else
    let call := BackendCall.find "OrderItem" [("orderId", orderId)] 100 (some auth) ua
    match resp with
    | .error e => (catchRes e, [call])
    | .ok r =>
      if !r.ok then (catchRes ("HTTP error! status: " ++ toString r.status), [call])
      else
        let items := (r.docs.getD []).map projectItem
        ({ content := titem (renderItems items)
           structuredContent := some { items := items }
           isError := false }, [call])

/-- Structured output of findProductById (part_000 lines 72-80). -/
structure ProductStructured where
  productId : Option String
  productName : Option String
  internalName : Option String
  description : Option String
  productTypeId : Option String
  isVirtual : Option String
  isVariant : Option String
deriving Repr, DecidableEq

/-- Projection of a raw Product record: `productId` verbatim, the remaining
fields collapsed to undefined when falsy (`|| undefined`). -/
def projectProduct (p : Doc) : ProductStructured :=
  { productId := p.productId
    productName := orUndef p.productName
    internalName := orUndef p.internalName
    description := orUndef p.description
    productTypeId := orUndef p.productTypeId
    isVirtual := orUndef p.isVirtual
    isVariant := orUndef p.isVariant }

/-- Text rendering of the product payload (stand-in for `JSON.stringify`). -/
def renderProduct (r : ProductStructured) : String :=
  renderKV [("productId", jsToStr r.productId),
    ("internalName", jsToStr r.internalName)]

/-- Backend oracle for findProductById: the outcome of the productId-filtered
query and, when reached, of the internalName-filtered fallback query. -/
structure ProductBackend where
  byIdResp : Except String FindResp
  byNameResp : Except String FindResp

/-- The handler of src/unnamed/part_000 (findProductById): a Product find by
productId, a fallback find by internalName when the first returned no docs,
a not-found error only after both are empty.  The HTTP ok flag is never
inspected by this handler. -/
def findProductById (cfg : ServerConfig) (dt : Option String)
    (id : String) (b : ProductBackend) :
    ToolResult ProductStructured × List BackendCall :=
  let auth := ternaryAuth dt cfg.BACKEND_ACCESS_TOKEN
  let ua := jsOrEmpty cfg.BACKEND_USER_AGENT
  let c1 := BackendCall.find "Product" [("productId", id)] 1 (some auth) ua
  let success := fun (p : Doc) (tr : List BackendCall) =>
    let result := projectProduct p
    (({ content := titem (renderProduct result)
        structuredContent := some result
        isError := false } : ToolResult ProductStructured), tr)
  match b.byIdResp with
  | .error e => (catchRes e, [c1])
  | .ok r1 =>
    match r1.docs with
    | some (p :: _) => success p [c1]
    | _ =>
      let c2 := BackendCall.find "Product" [("internalName", id)] 1 (some auth) ua
      match b.byNameResp with
      | .error e => (catchRes e, [c1, c2])
      | .ok r2 =>
        match r2.docs with
        | some (p :: _) => success p [c1, c2]
        | _ => (errRes ("Product not found: " ++ id), [c1, c2])

/-- Concrete fixture configuration used by witnesses and counterexamples. -/
def exCfg : ServerConfig :=
  { BACKEND_API_BASE := "https://b", BACKEND_ACCESS_TOKEN := some "tk",
    BACKEND_USER_AGENT := some "ua" }

/-- Concrete backend whose Content lookup succeeds with zero docs. -/
def exEmptyB : GetContentBackend :=
  { contentResp := .ok { ok := true, status := 200, docs := some [] },
    drResp := .ok { ok := true, status := 200, docs := some [] },
    etResp := .ok { ok := true, status := 200, docs := some [] },
    rawResp := .ok { ok := true, status := 200, body := "" } }

/-- Concrete benign filesystem environment. -/
def exFs : FsEnv :=
  { runtimeDir := none, targetDirExists := false,
    mkdirResult := .ok (), writeResult := .ok () }

/-- helper for docs emptiness: JS `!data.docs || data.docs.length === 0` -/
def emptyDocs : Option (List Doc) → Bool
  | none => true
  | some l => l.isEmpty

/-- Concrete product backend where both queries return zero docs. -/
def exProdB : ProductBackend :=
  { byIdResp := .ok { ok := true, status := 200, docs := some [] },
    byNameResp := .ok { ok := true, status := 200, docs := some [] } }

/-- Concrete product backend where both queries respond HTTP 500 with an
empty docs body. -/
def exProd500B : ProductBackend :=
  { byIdResp := .ok { ok := false, status := 500, docs := some [] },
    byNameResp := .ok { ok := false, status := 500, docs := some [] } }

/-- Every call in a trace carries the given Authorization header. -/
def authAll (l : List BackendCall) (a : Option String) : Bool :=
  l.all (fun c => c.auth == a)

/-- Whether a recorded call is a raw GET download. -/
def isRawGet : BackendCall → Bool
  | .rawGet _ _ _ => true
  | .find _ _ _ _ _ => false

/-- Concrete backend: ELECTRONIC_TEXT resource with one ElectronicText row
carrying "hello", and a raw endpoint serving "other". -/
def exTextB : GetContentBackend :=
  { contentResp := .ok
      { ok := true, status := 200,
        docs := some [{ dataResourceId := some "D1", mimeTypeId := some "text/plain" }] },
    drResp := .ok
      { ok := true, status := 200,
        docs := some [{ dataResourceTypeId := some "ELECTRONIC_TEXT" }] },
    etResp := .ok
      { ok := true, status := 200,
        docs := some [{ textData := some "hello" }] },
    rawResp := .ok { ok := true, status := 200, body := "other" } }

/-- Concrete backend: OFBIZ_FILE resource. -/
def exFileB : GetContentBackend :=
  { contentResp := exTextB.contentResp,
    drResp := .ok
      { ok := true, status := 200,
        docs := some [{ dataResourceTypeId := some "OFBIZ_FILE", objectInfo := some "/srv/f.csv" }] },
    etResp := exTextB.etResp,
    rawResp := exTextB.rawResp }

/-- Concrete backend: OFBIZ_FILE resource whose raw download fails. -/
def exFileFailB : GetContentBackend :=
  { contentResp := .ok
      { ok := true, status := 200,
        docs := some [{ dataResourceId := some "D1", mimeTypeId := some "text/plain" }] },
    drResp := .ok
      { ok := true, status := 200,
        docs := some [{ dataResourceTypeId := some "OFBIZ_FILE", objectInfo := some "/srv/f.csv" }] },
    etResp := .ok
      { ok := true, status := 200,
        docs := some [{ textData := some "hello" }] },
    rawResp := .ok { ok := false, status := 403, body := "" } }

/-- Configuration with neither a delegated nor a configured token. -/
def exCfgNoTok : ServerConfig :=
  { BACKEND_API_BASE := "https://b", BACKEND_ACCESS_TOKEN := none,
    BACKEND_USER_AGENT := none }

/-- Every call in a trace has a present (possibly empty-valued)
Authorization header. -/
def allAuthPresent (l : List BackendCall) : Bool :=
  l.all (fun c => c.auth.isSome)

/-- A configuration carrying no static access token. -/
def noTokCfg (base : String) (ua : Option String) : ServerConfig :=
  { BACKEND_API_BASE := base, BACKEND_ACCESS_TOKEN := none, BACKEND_USER_AGENT := ua }

/-- A filesystem environment whose write step fails. -/
def exFsBad : FsEnv :=
  { runtimeDir := some "/rt", targetDirExists := false,
    mkdirResult := .ok (), writeResult := .error "disk full" }

/-- A nonempty string is not isEmpty. -/
lemma isEmpty_false_of_ne (s : String) (h : s ≠ "") : s.isEmpty = false := by
  rw [Bool.eq_false_iff]
  intro hc
  exact h ((String.isEmpty_iff s).mp hc)

/-- The empty string is not JS-truthy. -/
lemma jsTruthy_some_empty : jsTruthy (some "") = false := by decide

/-- A nonempty defined string value is JS-truthy. -/
lemma jsTruthy_some_ne (s : String) (h : s ≠ "") : jsTruthy (some s) = true := by
  simp [jsTruthy, isEmpty_false_of_ne s h]

/-- C8: findOrderItems with a successful query returning zero docs yields
the success variant with an empty items list, not an error. -/
theorem findOrderItems_zero_docs_is_success
    (cfg : ServerConfig) (dt : Option String) (orderId : String) (r : FindResp)
    (hne : orderId ≠ "") (hok : r.ok = true) (hdocs : r.docs = some []) :
    (findOrderItems cfg dt orderId (.ok r)).1.structuredContent = some { items := [] } ∧
    (findOrderItems cfg dt orderId (.ok r)).1.isError = false := by
  unfold findOrderItems
  simp [isEmpty_false_of_ne orderId hne, hok, hdocs]

theorem findOrderItems_zero_docs_is_success_witness :
    (findOrderItems exCfg none "1001"
      (.ok { ok := true, status := 200, docs := some [] })).1.structuredContent =
        some { items := [] } ∧
    (findOrderItems exCfg none "1001"
      (.ok { ok := true, status := 200, docs := some [] })).1.isError = false :=
  findOrderItems_zero_docs_is_success exCfg none "1001" _ (by decide) rfl rfl

/-- C9 counterexample: findProductById never inspects the HTTP ok flag, so
when both Product queries respond HTTP 500 with an empty docs body the
handler returns the generic not-found error whose message contains no
occurrence of the status code 500 at all. -/
theorem findProductById_nonOk_status_not_reported :
    (findProductById exCfg none "P1" exProd500B).1.isError = true ∧
    (findProductById exCfg none "P1" exProd500B).1.content =
      titem ("Product not found: " ++ "P1") ∧
    ∀ item ∈ (findProductById exCfg none "P1" exProd500B).1.content,
      ∀ p q : String, item.text ≠ p ++ toString (500 : Nat) ++ q := by
  refine ⟨rfl, rfl, ?_⟩
  intro item hitem p q heq
  have hc : (findProductById exCfg none "P1" exProd500B).1.content =
      [{ type := "text", text := "Product not found: P1" }] := rfl
  rw [hc] at hitem
  have hitem' : item = { type := "text", text := "Product not found: P1" } := by
    simpa using hitem
  rw [hitem'] at heq
  have h5 : ('5' : Char) ∈ (p ++ toString (500 : Nat) ++ q).data := by
    rw [String.data_append, String.data_append]
    exact List.mem_append.mpr (Or.inl (List.mem_append.mpr (Or.inr (by decide))))
  rw [← heq] at h5
  exact absurd h5 (by decide)

/-- C9 amended: the query tools that check response.ok (getLogById and
findOrderItems) convert a non-ok HTTP status into the error variant with a
message containing the numeric status code; findProductById ignores the
HTTP status entirely, so its failures carry no status code. -/
theorem nonOk_status_reported
    (cfg : ServerConfig) (dt : Option String) (logId orderId : String)
    (r1 r2 : FindResp) (h1 : r1.ok = false) (h2 : r2.ok = false) (hne : orderId ≠ "") :
    ((getLogById cfg dt logId (.ok r1)).1.isError = true ∧
      ∃ item ∈ (getLogById cfg dt logId (.ok r1)).1.content,
        ∃ p q, item.text = p ++ toString r1.status ++ q) ∧
    ((findOrderItems cfg dt orderId (.ok r2)).1.isError = true ∧
      ∃ item ∈ (findOrderItems cfg dt orderId (.ok r2)).1.content,
        ∃ p q, item.text = p ++ toString r2.status ++ q) := by
  constructor
  · unfold getLogById
    simp only [h1, Bool.not_false, if_true, Bool.false_eq_true]
    refine ⟨trivial, ?_⟩
    refine ⟨_, List.mem_cons_of_mem _ (List.mem_cons_self _ _),
      "Error fetching DataManagerLog: HTTP error! status: ", "", ?_⟩
    show "Error fetching DataManagerLog: " ++ ("HTTP error! status: " ++ toString r1.status) = _
    rw [String.append_empty, ← String.append_assoc]
    rfl
  · unfold findOrderItems
    simp only [isEmpty_false_of_ne orderId hne, Bool.not_false, if_true, h2,
      Bool.false_eq_true, if_false]
    refine ⟨rfl, ?_⟩
    refine ⟨_, List.mem_cons_self _ _, "Error: HTTP error! status: ", "", ?_⟩
    show "Error: " ++ ("HTTP error! status: " ++ toString r2.status) = _
    rw [String.append_empty, ← String.append_assoc]
    rfl

theorem nonOk_status_reported_witness :
    (((getLogById exCfg none "40160" (.ok { ok := false, status := 500, docs := none })).1.isError = true ∧
      ∃ item ∈ (getLogById exCfg none "40160" (.ok { ok := false, status := 500, docs := none })).1.content,
        ∃ p q, item.text = p ++ toString (500 : Nat) ++ q) ∧
    ((findOrderItems exCfg none "1001" (.ok { ok := false, status := 500, docs := none })).1.isError = true ∧
      ∃ item ∈ (findOrderItems exCfg none "1001" (.ok { ok := false, status := 500, docs := none })).1.content,
        ∃ p q, item.text = p ++ toString (500 : Nat) ++ q)) :=
  nonOk_status_reported exCfg none "40160" "1001" _ _ rfl rfl (by decide)

/-- C3: a successful Content lookup with zero docs makes every getContent
variant return the not-found error mentioning the content id, with exactly
one backend call (the Content find) issued. -/
theorem getContent_notFound_single_query
    (cfg : ServerConfig) (dt : Option String) (args : GetContentArgs)
    (b : GetContentBackend) (fs : FsEnv) (r : FindResp)
    (hc : b.contentResp = .ok r) (hok : r.ok = true) (hdocs : r.docs = some []) :
    ((getContentSrc cfg dt args b).1 = errRes ("Content not found: " ++ args.contentId) ∧
      (getContentSrc cfg dt args b).2 =
        [gcFind cfg dt "Content" [("contentId", args.contentId)]]) ∧
    ((getContentDl cfg dt args b).1 = errRes ("Content not found: " ++ args.contentId) ∧
      (getContentDl cfg dt args b).2 =
        [gcFind cfg dt "Content" [("contentId", args.contentId)]]) ∧
    ((getContentPersist cfg dt args b fs).1 = errRes ("Content not found: " ++ args.contentId) ∧
      (getContentPersist cfg dt args b fs).2 =
        [gcFind cfg dt "Content" [("contentId", args.contentId)]]) := by
  unfold getContentSrc getContentDl getContentPersist
  rw [hc]
  simp [hok, hdocs]

theorem getContent_notFound_single_query_witness :
    ((getContentSrc exCfg none { contentId := "C9" } exEmptyB).1 =
        errRes ("Content not found: " ++ "C9") ∧
      (getContentSrc exCfg none { contentId := "C9" } exEmptyB).2 =
        [gcFind exCfg none "Content" [("contentId", "C9")]]) ∧
    ((getContentDl exCfg none { contentId := "C9" } exEmptyB).1 =
        errRes ("Content not found: " ++ "C9") ∧
      (getContentDl exCfg none { contentId := "C9" } exEmptyB).2 =
        [gcFind exCfg none "Content" [("contentId", "C9")]]) ∧
    ((getContentPersist exCfg none { contentId := "C9" } exEmptyB exFs).1 =
        errRes ("Content not found: " ++ "C9") ∧
      (getContentPersist exCfg none { contentId := "C9" } exEmptyB exFs).2 =
        [gcFind exCfg none "Content" [("contentId", "C9")]]) := by
  exact getContent_notFound_single_query exCfg none { contentId := "C9" } exEmptyB exFs
    { ok := true, status := 200, docs := some [] } rfl rfl rfl

/-- C10: when the productId-filtered query returns zero docs, findProductById
issues a second Product query filtered by internalName with the same input,
and the not-found error is returned exactly when both queries were empty. -/
theorem findProductById_internalName_fallback
    (cfg : ServerConfig) (dt : Option String) (id : String) (b : ProductBackend)
    (r1 r2 : FindResp) (h1 : b.byIdResp = .ok r1) (h2 : b.byNameResp = .ok r2) :
    (emptyDocs r1.docs = true →
      (findProductById cfg dt id b).2 =
        [BackendCall.find "Product" [("productId", id)] 1
          (some (ternaryAuth dt cfg.BACKEND_ACCESS_TOKEN)) (jsOrEmpty cfg.BACKEND_USER_AGENT),
         BackendCall.find "Product" [("internalName", id)] 1
          (some (ternaryAuth dt cfg.BACKEND_ACCESS_TOKEN)) (jsOrEmpty cfg.BACKEND_USER_AGENT)] ∧
      (emptyDocs r2.docs = true →
        (findProductById cfg dt id b).1 = errRes ("Product not found: " ++ id))) ∧
    ((findProductById cfg dt id b).1.isError = true →
      emptyDocs r1.docs = true ∧ emptyDocs r2.docs = true) := by
  unfold findProductById
  rw [h1, h2]
  rcases r1 with ⟨ok1, st1, docs1⟩
  rcases r2 with ⟨ok2, st2, docs2⟩
  rcases docs1 with _ | l1
  · rcases docs2 with _ | l2
    · simp [emptyDocs]
    · rcases l2 with _ | ⟨p2, t2⟩ <;> simp [emptyDocs]
  · rcases l1 with _ | ⟨p1, t1⟩
    · rcases docs2 with _ | l2
      · simp [emptyDocs]
      · rcases l2 with _ | ⟨p2, t2⟩ <;> simp [emptyDocs]
    · simp [emptyDocs]

theorem findProductById_internalName_fallback_witness :
    (emptyDocs (some ([] : List Doc)) = true →
      (findProductById exCfg none "P1" exProdB).2 =
        [BackendCall.find "Product" [("productId", "P1")] 1
          (some (ternaryAuth none exCfg.BACKEND_ACCESS_TOKEN)) (jsOrEmpty exCfg.BACKEND_USER_AGENT),
         BackendCall.find "Product" [("internalName", "P1")] 1
          (some (ternaryAuth none exCfg.BACKEND_ACCESS_TOKEN)) (jsOrEmpty exCfg.BACKEND_USER_AGENT)] ∧
      (emptyDocs (some ([] : List Doc)) = true →
        (findProductById exCfg none "P1" exProdB).1 = errRes ("Product not found: " ++ "P1"))) ∧
    ((findProductById exCfg none "P1" exProdB).1.isError = true →
      emptyDocs (some ([] : List Doc)) = true ∧ emptyDocs (some ([] : List Doc)) = true) := by
  exact findProductById_internalName_fallback exCfg none "P1" exProdB
    { ok := true, status := 200, docs := some [] }
    { ok := true, status := 200, docs := some [] } rfl rfl

/-- The src-variant tail always produces exactly one result variant. -/
lemma srcTail_exactlyOne (cfg : ServerConfig) (dt : Option String)
    (args : GetContentArgs) (b : GetContentBackend) (contentRecord : Doc)
    (drId : String) (textData0 : Option String) (tr : List BackendCall) :
    exactlyOneVariant (srcTail cfg dt args b contentRecord drId textData0 tr).1 := by
  unfold srcTail
  simp only [exactlyOneVariant]
  repeat' (first | split | dsimp only)
  all_goals simp [errRes, titem]

/-- The download-variant tail always produces exactly one result variant. -/
lemma dlTail_exactlyOne (cfg : ServerConfig) (dt : Option String)
    (args : GetContentArgs) (b : GetContentBackend) (contentRecord : Doc)
    (drId : String) (tyId textData0 : Option String) (tr : List BackendCall) :
    exactlyOneVariant (dlTail cfg dt args b contentRecord drId tyId textData0 tr).1 := by
  unfold dlTail
  simp only [exactlyOneVariant]
  repeat' (first | split | dsimp only)
  all_goals simp [errRes, titem]

/-- The persistence-variant tail always produces exactly one result variant. -/
lemma persistTail_exactlyOne (cfg : ServerConfig) (dt : Option String)
    (args : GetContentArgs) (b : GetContentBackend) (fs : FsEnv)
    (contentRecord : Doc) (drId : String) (tyId textData0 : Option String)
    (tr : List BackendCall) :
    exactlyOneVariant (persistTail cfg dt args b fs contentRecord drId tyId textData0 tr).1 := by
  unfold persistTail
  simp only [exactlyOneVariant]
  repeat' (first | split | dsimp only)
  all_goals simp [errRes, catchRes, titem]

/-- Exactly-one-variant for the src getContent handler. -/
lemma getContentSrc_exactlyOne (cfg : ServerConfig) (dt : Option String)
    (args : GetContentArgs) (b : GetContentBackend) :
    exactlyOneVariant (getContentSrc cfg dt args b).1 := by
  unfold getContentSrc
  cases hcr : b.contentResp with
  | error e => simp [exactlyOneVariant, catchRes, errRes, titem]
  | ok r1 =>
    cases hok1 : r1.ok with
    | false => simp [exactlyOneVariant, catchRes, errRes, titem, hok1]
    | true =>
      cases hd1 : r1.docs with
      | none => simp [exactlyOneVariant, errRes, titem, hok1, hd1]
      | some l1 =>
        cases l1 with
        | nil => simp [exactlyOneVariant, errRes, titem, hok1, hd1]
        | cons cdoc rest =>
          cases hdr : jsTruthy cdoc.dataResourceId with
          | false => simp [exactlyOneVariant, errRes, titem, hok1, hd1, hdr]
          | true =>
            cases hcd : b.drResp with
            | error e => simp [exactlyOneVariant, catchRes, errRes, titem, hok1, hd1, hdr, hcd]
            | ok r2 =>
              cases hok2 : r2.ok with
              | false => simp [exactlyOneVariant, catchRes, errRes, titem, hok1, hd1, hdr, hcd, hok2]
              | true =>
                cases hd2 : r2.docs with
                | none => simp [exactlyOneVariant, errRes, titem, hok1, hd1, hdr, hcd, hok2, hd2]
                | some l2 =>
                  cases l2 with
                  | nil => simp [exactlyOneVariant, errRes, titem, hok1, hd1, hdr, hcd, hok2, hd2]
                  | cons ddoc rest2 =>
                    cases hty1 : (ddoc.dataResourceTypeId == some "ELECTRONIC_TEXT"
                        || ddoc.dataResourceTypeId == some "SHORT_TEXT") with
                    | true =>
                      cases hce : b.etResp with
                      | error e =>
                        simp [exactlyOneVariant, catchRes, errRes, titem,
                          hok1, hd1, hdr, hcd, hok2, hd2, hty1, hce]
                      | ok r3 =>
                        simp only [hok1, hd1, hdr, hcd, hok2, hd2, hty1, hce,
                          Bool.not_true, Bool.not_false, if_true, if_false,
                          Bool.false_eq_true, ite_true, ite_false]
                        exact srcTail_exactlyOne cfg dt args b _ _ _ _
                    | false =>
                      cases hty2 : (ddoc.dataResourceTypeId == some "OFBIZ_FILE"
                          || ddoc.dataResourceTypeId == some "LOCAL_FILE") with
                      | true =>
                        simp [exactlyOneVariant, errRes, titem,
                          hok1, hd1, hdr, hcd, hok2, hd2, hty1, hty2]
                      | false =>
                        simp only [hok1, hd1, hdr, hcd, hok2, hd2, hty1, hty2,
                          Bool.not_true, Bool.not_false, if_true, if_false,
                          Bool.false_eq_true, ite_true, ite_false]
                        exact srcTail_exactlyOne cfg dt args b _ _ _ _

/-- Exactly-one-variant for the part_002 getContent handler. -/
lemma getContentDl_exactlyOne (cfg : ServerConfig) (dt : Option String)
    (args : GetContentArgs) (b : GetContentBackend) :
    exactlyOneVariant (getContentDl cfg dt args b).1 := by
  unfold getContentDl
  cases hcr : b.contentResp with
  | error e => simp [exactlyOneVariant, catchRes, errRes, titem]
  | ok r1 =>
    cases hok1 : r1.ok with
    | false => simp [exactlyOneVariant, catchRes, errRes, titem, hok1]
    | true =>
      cases hd1 : r1.docs with
      | none => simp [exactlyOneVariant, errRes, titem, hok1, hd1]
      | some l1 =>
        cases l1 with
        | nil => simp [exactlyOneVariant, errRes, titem, hok1, hd1]
        | cons cdoc rest =>
          cases hdr : jsTruthy cdoc.dataResourceId with
          | false => simp [exactlyOneVariant, errRes, titem, hok1, hd1, hdr]
          | true =>
            cases hcd : b.drResp with
            | error e => simp [exactlyOneVariant, catchRes, errRes, titem, hok1, hd1, hdr, hcd]
            | ok r2 =>
              cases hok2 : r2.ok with
              | false => simp [exactlyOneVariant, catchRes, errRes, titem, hok1, hd1, hdr, hcd, hok2]
              | true =>
                cases hd2 : r2.docs with
                | none => simp [exactlyOneVariant, errRes, titem, hok1, hd1, hdr, hcd, hok2, hd2]
                | some l2 =>
                  cases l2 with
                  | nil => simp [exactlyOneVariant, errRes, titem, hok1, hd1, hdr, hcd, hok2, hd2]
                  | cons ddoc rest2 =>
                    cases hty1 : (ddoc.dataResourceTypeId == some "ELECTRONIC_TEXT"
                        || ddoc.dataResourceTypeId == some "SHORT_TEXT") with
                    | true =>
                      cases hce : b.etResp with
                      | error e =>
                        simp [exactlyOneVariant, catchRes, errRes, titem,
                          hok1, hd1, hdr, hcd, hok2, hd2, hty1, hce]
                      | ok r3 =>
                        simp only [hok1, hd1, hdr, hcd, hok2, hd2, hty1, hce,
                          Bool.not_true, Bool.not_false, if_true, if_false,
                          Bool.false_eq_true, ite_true, ite_false]
                        exact dlTail_exactlyOne cfg dt args b _ _ _ _ _
                    | false =>
                      simp only [hok1, hd1, hdr, hcd, hok2, hd2, hty1,
                        Bool.not_true, Bool.not_false, if_true, if_false,
                        Bool.false_eq_true, ite_true, ite_false]
                      exact dlTail_exactlyOne cfg dt args b _ _ _ _ _

/-- Exactly-one-variant for the part_003 getContent handler. -/
lemma getContentPersist_exactlyOne (cfg : ServerConfig) (dt : Option String)
    (args : GetContentArgs) (b : GetContentBackend) (fs : FsEnv) :
    exactlyOneVariant (getContentPersist cfg dt args b fs).1 := by
  unfold getContentPersist
  cases hcr : b.contentResp with
  | error e => simp [exactlyOneVariant, catchRes, errRes, titem]
  | ok r1 =>
    cases hok1 : r1.ok with
    | false => simp [exactlyOneVariant, catchRes, errRes, titem, hok1]
    | true =>
      cases hd1 : r1.docs with
      | none => simp [exactlyOneVariant, errRes, titem, hok1, hd1]
      | some l1 =>
        cases l1 with
        | nil => simp [exactlyOneVariant, errRes, titem, hok1, hd1]
        | cons cdoc rest =>
          cases hdr : jsTruthy cdoc.dataResourceId with
          | false => simp [exactlyOneVariant, errRes, titem, hok1, hd1, hdr]
          | true =>
            cases hcd : b.drResp with
            | error e => simp [exactlyOneVariant, catchRes, errRes, titem, hok1, hd1, hdr, hcd]
            | ok r2 =>
              cases hok2 : r2.ok with
              | false => simp [exactlyOneVariant, catchRes, errRes, titem, hok1, hd1, hdr, hcd, hok2]
              | true =>
                cases hd2 : r2.docs with
                | none => simp [exactlyOneVariant, errRes, titem, hok1, hd1, hdr, hcd, hok2, hd2]
                | some l2 =>
                  cases l2 with
                  | nil => simp [exactlyOneVariant, errRes, titem, hok1, hd1, hdr, hcd, hok2, hd2]
                  | cons ddoc rest2 =>
                    cases hty1 : (ddoc.dataResourceTypeId == some "ELECTRONIC_TEXT"
                        || ddoc.dataResourceTypeId == some "SHORT_TEXT") with
                    | true =>
                      cases hce : b.etResp with
                      | error e =>
                        simp [exactlyOneVariant, catchRes, errRes, titem,
                          hok1, hd1, hdr, hcd, hok2, hd2, hty1, hce]
                      | ok r3 =>
                        simp only [hok1, hd1, hdr, hcd, hok2, hd2, hty1, hce,
                          Bool.not_true, Bool.not_false, if_true, if_false,
                          Bool.false_eq_true, ite_true, ite_false]
                        exact persistTail_exactlyOne cfg dt args b fs _ _ _ _ _
                    | false =>
                      simp only [hok1, hd1, hdr, hcd, hok2, hd2, hty1,
                        Bool.not_true, Bool.not_false, if_true, if_false,
                        Bool.false_eq_true, ite_true, ite_false]
                      exact persistTail_exactlyOne cfg dt args b fs _ _ _ _ _

/-- Exactly-one-variant for getLogById. -/
lemma getLogById_exactlyOne (cfg : ServerConfig) (dt : Option String)
    (logId : String) (resp : Except String FindResp) :
    exactlyOneVariant (getLogById cfg dt logId resp).1 := by
  unfold getLogById
  repeat' (first | split | dsimp only)
  all_goals simp [exactlyOneVariant, errRes, catchRes, titem]

/-- Exactly-one-variant for findOrderItems. -/
lemma findOrderItems_exactlyOne (cfg : ServerConfig) (dt : Option String)
    (orderId : String) (resp : Except String FindResp) :
    exactlyOneVariant (findOrderItems cfg dt orderId resp).1 := by
  unfold findOrderItems
  repeat' (first | split | dsimp only)
  all_goals simp [exactlyOneVariant, errRes, catchRes, titem]

/-- Exactly-one-variant for findProductById. -/
lemma findProductById_exactlyOne (cfg : ServerConfig) (dt : Option String)
    (id : String) (b : ProductBackend) :
    exactlyOneVariant (findProductById cfg dt id b).1 := by
  unfold findProductById
  repeat' (first | split | dsimp only)
  all_goals simp [exactlyOneVariant, errRes, catchRes, titem]

/-- C7: every embedded handler returns exactly one of the two declared
ToolResult variants, for every input and backend outcome. -/
theorem tool_results_exactly_one_variant :
    (∀ cfg dt args b, exactlyOneVariant (getContentSrc cfg dt args b).1) ∧
    (∀ cfg dt args b, exactlyOneVariant (getContentDl cfg dt args b).1) ∧
    (∀ cfg dt args b fs, exactlyOneVariant (getContentPersist cfg dt args b fs).1) ∧
    (∀ cfg dt logId resp, exactlyOneVariant (getLogById cfg dt logId resp).1) ∧
    (∀ cfg dt orderId resp, exactlyOneVariant (findOrderItems cfg dt orderId resp).1) ∧
    (∀ cfg dt id b, exactlyOneVariant (findProductById cfg dt id b).1) :=
  ⟨getContentSrc_exactlyOne, getContentDl_exactlyOne, getContentPersist_exactlyOne,
   getLogById_exactlyOne, findOrderItems_exactlyOne, findProductById_exactlyOne⟩

/-- The src-variant tail appends exactly the ViewBinaryDataResource GET,
authorized by the same ternary value as the find calls. -/
lemma srcTail_trace (cfg : ServerConfig) (dt : Option String)
    (args : GetContentArgs) (b : GetContentBackend) (contentRecord : Doc)
    (drId : String) (textData0 : Option String) (tr : List BackendCall) :
    (srcTail cfg dt args b contentRecord drId textData0 tr).2 =
      tr ++ [BackendCall.rawGet
        (cfg.BACKEND_API_BASE ++ "/content/control/ViewBinaryDataResource?dataResourceId=" ++ drId)
        (some (ternaryAuth dt cfg.BACKEND_ACCESS_TOKEN))
        (jsOrEmpty cfg.BACKEND_USER_AGENT)] := by
  unfold srcTail
  repeat' (first | split | dsimp only)

/-- The guarded fallback leaves the trace unchanged when text is already
truthy, and otherwise appends exactly the DownloadCsvFile GET. -/
lemma dlFallback_trace (cfg : ServerConfig) (dt : Option String)
    (args : GetContentArgs) (b : GetContentBackend)
    (textData0 : Option String) (tr : List BackendCall) :
    (dlFallback cfg dt args b textData0 tr).2 =
      if jsTruthy textData0 then tr
      else tr ++ [BackendCall.rawGet
        (cfg.BACKEND_API_BASE ++ "/api/DownloadCsvFile?contentId=" ++ args.contentId)
        (some ("Bearer " ++ jsToStr (jsOr dt cfg.BACKEND_ACCESS_TOKEN)))
        (jsOrEmpty cfg.BACKEND_USER_AGENT)] := by
  unfold dlFallback
  repeat' (first | split | dsimp only)
  all_goals simp_all

/-- The part_002 tail reports exactly the fallback trace. -/
lemma dlTail_trace (cfg : ServerConfig) (dt : Option String)
    (args : GetContentArgs) (b : GetContentBackend) (contentRecord : Doc)
    (drId : String) (tyId textData0 : Option String) (tr : List BackendCall) :
    (dlTail cfg dt args b contentRecord drId tyId textData0 tr).2 =
      (dlFallback cfg dt args b textData0 tr).2 := by
  unfold dlTail
  repeat' (first | split | dsimp only)

/-- The part_003 tail reports exactly the fallback trace. -/
lemma persistTail_trace (cfg : ServerConfig) (dt : Option String)
    (args : GetContentArgs) (b : GetContentBackend) (fs : FsEnv)
    (contentRecord : Doc) (drId : String) (tyId textData0 : Option String)
    (tr : List BackendCall) :
    (persistTail cfg dt args b fs contentRecord drId tyId textData0 tr).2 =
      (dlFallback cfg dt args b textData0 tr).2 := by
  unfold persistTail
  repeat' (first | split | dsimp only)

/-- With a truthy delegated token, the ternary resolves to its Bearer string. -/
lemma ternaryAuth_delegated (t1 : String) (tok : Option String) (h : t1 ≠ "") :
    ternaryAuth (some t1) tok = "Bearer " ++ t1 := by
  simp [ternaryAuth, jsTruthy_some_ne t1 h, jsOrEmpty]

/-- With a truthy delegated token, the conditional header resolves to its
Bearer string. -/
lemma condAuth_delegated (t1 : String) (tok : Option String) (h : t1 ≠ "") :
    condAuth (some t1) tok = some ("Bearer " ++ t1) := by
  simp [condAuth, jsTruthy_some_ne t1 h, jsOrEmpty]

/-- With a truthy first operand, JS or returns it. -/
lemma jsOr_delegated (t1 : String) (tok : Option String) (h : t1 ≠ "") :
    jsOr (some t1) tok = some t1 := by
  simp [jsOr, jsTruthy_some_ne t1 h]

/-- Every call issued by the src getContent handler carries the ternary
Authorization value. -/
lemma getContentSrc_authAll (cfg : ServerConfig) (dt : Option String)
    (args : GetContentArgs) (b : GetContentBackend) :
    authAll (getContentSrc cfg dt args b).2
      (some (ternaryAuth dt cfg.BACKEND_ACCESS_TOKEN)) = true := by
  unfold getContentSrc
  cases hcr : b.contentResp with
  | error e => simp [authAll, gcFind, BackendCall.auth, List.all_append]
  | ok r1 =>
    cases hok1 : r1.ok with
    | false => simp [authAll, gcFind, BackendCall.auth, List.all_append, hok1]
    | true =>
      cases hd1 : r1.docs with
      | none => simp [authAll, gcFind, BackendCall.auth, List.all_append, hok1, hd1]
      | some l1 =>
        cases l1 with
        | nil => simp [authAll, gcFind, BackendCall.auth, List.all_append, hok1, hd1]
        | cons cdoc rest =>
          cases hdr : jsTruthy cdoc.dataResourceId with
          | false => simp [authAll, gcFind, BackendCall.auth, List.all_append, hok1, hd1, hdr]
          | true =>
            cases hcd : b.drResp with
            | error e => simp [authAll, gcFind, BackendCall.auth, List.all_append, hok1, hd1, hdr, hcd]
            | ok r2 =>
              cases hok2 : r2.ok with
              | false => simp [authAll, gcFind, BackendCall.auth, List.all_append, hok1, hd1, hdr, hcd, hok2]
              | true =>
                cases hd2 : r2.docs with
                | none => simp [authAll, gcFind, BackendCall.auth, List.all_append, hok1, hd1, hdr, hcd, hok2, hd2]
                | some l2 =>
                  cases l2 with
                  | nil => simp [authAll, gcFind, BackendCall.auth, List.all_append, hok1, hd1, hdr, hcd, hok2, hd2]
                  | cons ddoc rest2 =>
                    cases hty1 : (ddoc.dataResourceTypeId == some "ELECTRONIC_TEXT"
                        || ddoc.dataResourceTypeId == some "SHORT_TEXT") with
                    | true =>
                      cases hce : b.etResp with
                      | error e => simp [authAll, gcFind, BackendCall.auth, List.all_append, hok1, hd1, hdr, hcd, hok2, hd2, hty1, hce]
                      | ok r3 =>
                        simp only [hok1, hd1, hdr, hcd, hok2, hd2, hty1, hce, Bool.not_true, Bool.not_false, if_true, if_false, Bool.false_eq_true, ite_true, ite_false]
                        rw [srcTail_trace]
                        simp [authAll, gcFind, BackendCall.auth, List.all_append]
                    | false =>
                      cases hty2 : (ddoc.dataResourceTypeId == some "OFBIZ_FILE"
                          || ddoc.dataResourceTypeId == some "LOCAL_FILE") with
                      | true => simp [authAll, gcFind, BackendCall.auth, List.all_append, hok1, hd1, hdr, hcd, hok2, hd2, hty1, hty2]
                      | false =>
                        simp only [hok1, hd1, hdr, hcd, hok2, hd2, hty1, hty2, Bool.not_true, Bool.not_false, if_true, if_false, Bool.false_eq_true, ite_true, ite_false]
                        rw [srcTail_trace]
                        simp [authAll, gcFind, BackendCall.auth, List.all_append]

/-- Every call issued by the part_002 getContent handler carries the
delegated Bearer token when one is present. -/
lemma getContentDl_authAll (cfg : ServerConfig) (t1 : String)
    (args : GetContentArgs) (b : GetContentBackend) (h : t1 ≠ "") :
    authAll (getContentDl cfg (some t1) args b).2
      (some ("Bearer " ++ t1)) = true := by
  unfold getContentDl
  cases hcr : b.contentResp with
  | error e => simp [authAll, gcFind, BackendCall.auth, List.all_append, ternaryAuth_delegated t1 cfg.BACKEND_ACCESS_TOKEN h, jsOr_delegated t1 cfg.BACKEND_ACCESS_TOKEN h, jsToStr]
  | ok r1 =>
    cases hok1 : r1.ok with
    | false => simp [authAll, gcFind, BackendCall.auth, List.all_append, hok1, ternaryAuth_delegated t1 cfg.BACKEND_ACCESS_TOKEN h, jsOr_delegated t1 cfg.BACKEND_ACCESS_TOKEN h, jsToStr]
    | true =>
      cases hd1 : r1.docs with
      | none => simp [authAll, gcFind, BackendCall.auth, List.all_append, hok1, hd1, ternaryAuth_delegated t1 cfg.BACKEND_ACCESS_TOKEN h, jsOr_delegated t1 cfg.BACKEND_ACCESS_TOKEN h, jsToStr]
      | some l1 =>
        cases l1 with
        | nil => simp [authAll, gcFind, BackendCall.auth, List.all_append, hok1, hd1, ternaryAuth_delegated t1 cfg.BACKEND_ACCESS_TOKEN h, jsOr_delegated t1 cfg.BACKEND_ACCESS_TOKEN h, jsToStr]
        | cons cdoc rest =>
          cases hdr : jsTruthy cdoc.dataResourceId with
          | false => simp [authAll, gcFind, BackendCall.auth, List.all_append, hok1, hd1, hdr, ternaryAuth_delegated t1 cfg.BACKEND_ACCESS_TOKEN h, jsOr_delegated t1 cfg.BACKEND_ACCESS_TOKEN h, jsToStr]
          | true =>
            cases hcd : b.drResp with
            | error e => simp [authAll, gcFind, BackendCall.auth, List.all_append, hok1, hd1, hdr, hcd, ternaryAuth_delegated t1 cfg.BACKEND_ACCESS_TOKEN h, jsOr_delegated t1 cfg.BACKEND_ACCESS_TOKEN h, jsToStr]
            | ok r2 =>
              cases hok2 : r2.ok with
              | false => simp [authAll, gcFind, BackendCall.auth, List.all_append, hok1, hd1, hdr, hcd, hok2, ternaryAuth_delegated t1 cfg.BACKEND_ACCESS_TOKEN h, jsOr_delegated t1 cfg.BACKEND_ACCESS_TOKEN h, jsToStr]
              | true =>
                cases hd2 : r2.docs with
                | none => simp [authAll, gcFind, BackendCall.auth, List.all_append, hok1, hd1, hdr, hcd, hok2, hd2, ternaryAuth_delegated t1 cfg.BACKEND_ACCESS_TOKEN h, jsOr_delegated t1 cfg.BACKEND_ACCESS_TOKEN h, jsToStr]
                | some l2 =>
                  cases l2 with
                  | nil => simp [authAll, gcFind, BackendCall.auth, List.all_append, hok1, hd1, hdr, hcd, hok2, hd2, ternaryAuth_delegated t1 cfg.BACKEND_ACCESS_TOKEN h, jsOr_delegated t1 cfg.BACKEND_ACCESS_TOKEN h, jsToStr]
                  | cons ddoc rest2 =>
                    cases hty1 : (ddoc.dataResourceTypeId == some "ELECTRONIC_TEXT"
                        || ddoc.dataResourceTypeId == some "SHORT_TEXT") with
                    | true =>
                      cases hce : b.etResp with
                      | error e => simp [authAll, gcFind, BackendCall.auth, List.all_append, hok1, hd1, hdr, hcd, hok2, hd2, hty1, hce, ternaryAuth_delegated t1 cfg.BACKEND_ACCESS_TOKEN h, jsOr_delegated t1 cfg.BACKEND_ACCESS_TOKEN h, jsToStr]
                      | ok r3 =>
                        simp only [hok1, hd1, hdr, hcd, hok2, hd2, hty1, hce, Bool.not_true, Bool.not_false, if_true, if_false, Bool.false_eq_true, ite_true, ite_false]
                        rw [dlTail_trace, dlFallback_trace]
                        repeat' split
                        all_goals simp [authAll, gcFind, BackendCall.auth, List.all_append, ternaryAuth_delegated t1 cfg.BACKEND_ACCESS_TOKEN h, jsOr_delegated t1 cfg.BACKEND_ACCESS_TOKEN h, jsToStr]
                    | false =>
                      simp only [hok1, hd1, hdr, hcd, hok2, hd2, hty1, Bool.not_true, Bool.not_false, if_true, if_false, Bool.false_eq_true, ite_true, ite_false]
                      rw [dlTail_trace, dlFallback_trace]
                      repeat' split
                      all_goals simp [authAll, gcFind, BackendCall.auth, List.all_append, ternaryAuth_delegated t1 cfg.BACKEND_ACCESS_TOKEN h, jsOr_delegated t1 cfg.BACKEND_ACCESS_TOKEN h, jsToStr]

/-- Every call issued by the part_003 getContent handler carries the
delegated Bearer token when one is present. -/
lemma getContentPersist_authAll (cfg : ServerConfig) (t1 : String)
    (args : GetContentArgs) (b : GetContentBackend) (fs : FsEnv) (h : t1 ≠ "") :
    authAll (getContentPersist cfg (some t1) args b fs).2
      (some ("Bearer " ++ t1)) = true := by
  unfold getContentPersist
  cases hcr : b.contentResp with
  | error e => simp [authAll, gcFind, BackendCall.auth, List.all_append, ternaryAuth_delegated t1 cfg.BACKEND_ACCESS_TOKEN h, jsOr_delegated t1 cfg.BACKEND_ACCESS_TOKEN h, jsToStr]
  | ok r1 =>
    cases hok1 : r1.ok with
    | false => simp [authAll, gcFind, BackendCall.auth, List.all_append, hok1, ternaryAuth_delegated t1 cfg.BACKEND_ACCESS_TOKEN h, jsOr_delegated t1 cfg.BACKEND_ACCESS_TOKEN h, jsToStr]
    | true =>
      cases hd1 : r1.docs with
      | none => simp [authAll, gcFind, BackendCall.auth, List.all_append, hok1, hd1, ternaryAuth_delegated t1 cfg.BACKEND_ACCESS_TOKEN h, jsOr_delegated t1 cfg.BACKEND_ACCESS_TOKEN h, jsToStr]
      | some l1 =>
        cases l1 with
        | nil => simp [authAll, gcFind, BackendCall.auth, List.all_append, hok1, hd1, ternaryAuth_delegated t1 cfg.BACKEND_ACCESS_TOKEN h, jsOr_delegated t1 cfg.BACKEND_ACCESS_TOKEN h, jsToStr]
        | cons cdoc rest =>
          cases hdr : jsTruthy cdoc.dataResourceId with
          | false => simp [authAll, gcFind, BackendCall.auth, List.all_append, hok1, hd1, hdr, ternaryAuth_delegated t1 cfg.BACKEND_ACCESS_TOKEN h, jsOr_delegated t1 cfg.BACKEND_ACCESS_TOKEN h, jsToStr]
          | true =>
            cases hcd : b.drResp with
            | error e => simp [authAll, gcFind, BackendCall.auth, List.all_append, hok1, hd1, hdr, hcd, ternaryAuth_delegated t1 cfg.BACKEND_ACCESS_TOKEN h, jsOr_delegated t1 cfg.BACKEND_ACCESS_TOKEN h, jsToStr]
            | ok r2 =>
              cases hok2 : r2.ok with
              | false => simp [authAll, gcFind, BackendCall.auth, List.all_append, hok1, hd1, hdr, hcd, hok2, ternaryAuth_delegated t1 cfg.BACKEND_ACCESS_TOKEN h, jsOr_delegated t1 cfg.BACKEND_ACCESS_TOKEN h, jsToStr]
              | true =>
                cases hd2 : r2.docs with
                | none => simp [authAll, gcFind, BackendCall.auth, List.all_append, hok1, hd1, hdr, hcd, hok2, hd2, ternaryAuth_delegated t1 cfg.BACKEND_ACCESS_TOKEN h, jsOr_delegated t1 cfg.BACKEND_ACCESS_TOKEN h, jsToStr]
                | some l2 =>
                  cases l2 with
                  | nil => simp [authAll, gcFind, BackendCall.auth, List.all_append, hok1, hd1, hdr, hcd, hok2, hd2, ternaryAuth_delegated t1 cfg.BACKEND_ACCESS_TOKEN h, jsOr_delegated t1 cfg.BACKEND_ACCESS_TOKEN h, jsToStr]
                  | cons ddoc rest2 =>
                    cases hty1 : (ddoc.dataResourceTypeId == some "ELECTRONIC_TEXT"
                        || ddoc.dataResourceTypeId == some "SHORT_TEXT") with
                    | true =>
                      cases hce : b.etResp with
                      | error e => simp [authAll, gcFind, BackendCall.auth, List.all_append, hok1, hd1, hdr, hcd, hok2, hd2, hty1, hce, ternaryAuth_delegated t1 cfg.BACKEND_ACCESS_TOKEN h, jsOr_delegated t1 cfg.BACKEND_ACCESS_TOKEN h, jsToStr]
                      | ok r3 =>
                        simp only [hok1, hd1, hdr, hcd, hok2, hd2, hty1, hce, Bool.not_true, Bool.not_false, if_true, if_false, Bool.false_eq_true, ite_true, ite_false]
                        rw [persistTail_trace, dlFallback_trace]
                        repeat' split
                        all_goals simp [authAll, gcFind, BackendCall.auth, List.all_append, ternaryAuth_delegated t1 cfg.BACKEND_ACCESS_TOKEN h, jsOr_delegated t1 cfg.BACKEND_ACCESS_TOKEN h, jsToStr]
                    | false =>
                      simp only [hok1, hd1, hdr, hcd, hok2, hd2, hty1, Bool.not_true, Bool.not_false, if_true, if_false, Bool.false_eq_true, ite_true, ite_false]
                      rw [persistTail_trace, dlFallback_trace]
                      repeat' split
                      all_goals simp [authAll, gcFind, BackendCall.auth, List.all_append, ternaryAuth_delegated t1 cfg.BACKEND_ACCESS_TOKEN h, jsOr_delegated t1 cfg.BACKEND_ACCESS_TOKEN h, jsToStr]

/-- Every call issued by getLogById carries the conditional header value. -/
lemma getLogById_authAll (cfg : ServerConfig) (dt : Option String)
    (logId : String) (resp : Except String FindResp) :
    authAll (getLogById cfg dt logId resp).2
      (condAuth dt cfg.BACKEND_ACCESS_TOKEN) = true := by
  unfold getLogById
  repeat' (first | split | dsimp only)
  all_goals simp [authAll, BackendCall.auth]

/-- Every call issued by findOrderItems carries the ternary value. -/
lemma findOrderItems_authAll (cfg : ServerConfig) (dt : Option String)
    (orderId : String) (resp : Except String FindResp) :
    authAll (findOrderItems cfg dt orderId resp).2
      (some (ternaryAuth dt cfg.BACKEND_ACCESS_TOKEN)) = true := by
  unfold findOrderItems
  repeat' (first | split | dsimp only)
  all_goals simp [authAll, BackendCall.auth]

/-- Every call issued by findProductById carries the ternary value. -/
lemma findProductById_authAll (cfg : ServerConfig) (dt : Option String)
    (id : String) (b : ProductBackend) :
    authAll (findProductById cfg dt id b).2
      (some (ternaryAuth dt cfg.BACKEND_ACCESS_TOKEN)) = true := by
  unfold findProductById
  repeat' (first | split | dsimp only)
  all_goals simp [authAll, BackendCall.auth]

/-- C4: with a request-scoped delegated token T1 present, every outbound
backend call of every embedded handler carries Authorization Bearer T1
(never the configured token). -/
theorem delegated_token_precedence
    (cfg : ServerConfig) (t1 : String) (args : GetContentArgs)
    (b : GetContentBackend) (fs : FsEnv) (logId orderId id : String)
    (lresp iresp : Except String FindResp) (pb : ProductBackend)
    (h : t1 ≠ "") :
    authAll (getContentSrc cfg (some t1) args b).2 (some ("Bearer " ++ t1)) = true ∧
    authAll (getContentDl cfg (some t1) args b).2 (some ("Bearer " ++ t1)) = true ∧
    authAll (getContentPersist cfg (some t1) args b fs).2 (some ("Bearer " ++ t1)) = true ∧
    authAll (getLogById cfg (some t1) logId lresp).2 (some ("Bearer " ++ t1)) = true ∧
    authAll (findOrderItems cfg (some t1) orderId iresp).2 (some ("Bearer " ++ t1)) = true ∧
    authAll (findProductById cfg (some t1) id pb).2 (some ("Bearer " ++ t1)) = true := by
  refine ⟨?_, ?_, ?_, ?_, ?_, ?_⟩
  · have hgen := getContentSrc_authAll cfg (some t1) args b
    rwa [ternaryAuth_delegated t1 cfg.BACKEND_ACCESS_TOKEN h] at hgen
  · exact getContentDl_authAll cfg t1 args b h
  · exact getContentPersist_authAll cfg t1 args b fs h
  · have hgen := getLogById_authAll cfg (some t1) logId lresp
    rwa [condAuth_delegated t1 cfg.BACKEND_ACCESS_TOKEN h] at hgen
  · have hgen := findOrderItems_authAll cfg (some t1) orderId iresp
    rwa [ternaryAuth_delegated t1 cfg.BACKEND_ACCESS_TOKEN h] at hgen
  · have hgen := findProductById_authAll cfg (some t1) id pb
    rwa [ternaryAuth_delegated t1 cfg.BACKEND_ACCESS_TOKEN h] at hgen

theorem delegated_token_precedence_witness :
    authAll (getContentSrc exCfg (some "T1") { contentId := "C1" } exEmptyB).2
      (some ("Bearer " ++ "T1")) = true ∧
    authAll (getContentDl exCfg (some "T1") { contentId := "C1" } exEmptyB).2
      (some ("Bearer " ++ "T1")) = true ∧
    authAll (getContentPersist exCfg (some "T1") { contentId := "C1" } exEmptyB exFs).2
      (some ("Bearer " ++ "T1")) = true ∧
    authAll (getLogById exCfg (some "T1") "40160"
        (.ok { ok := true, status := 200, docs := some [] })).2
      (some ("Bearer " ++ "T1")) = true ∧
    authAll (findOrderItems exCfg (some "T1") "1001"
        (.ok { ok := true, status := 200, docs := some [] })).2
      (some ("Bearer " ++ "T1")) = true ∧
    authAll (findProductById exCfg (some "T1") "P1" exProdB).2
      (some ("Bearer " ++ "T1")) = true := by
  exact delegated_token_precedence exCfg "T1" { contentId := "C1" } exEmptyB exFs
    "40160" "1001" "P1" (.ok { ok := true, status := 200, docs := some [] })
    (.ok { ok := true, status := 200, docs := some [] }) exProdB (by decide)

/-- C1 counterexample: in the src getContent variant, with an
ELECTRONIC_TEXT resource whose ElectronicText row carries "hello" and a raw
endpoint serving "other", the returned textData is "other" (not the row's
text verbatim) and the raw download was attempted. -/
theorem getContentSrc_overwrites_typed_text :
    (getContentSrc exCfg none { contentId := "C1" } exTextB).1.structuredContent =
      some { contentId := "C1", dataResourceId := some "D1",
             textData := some "other", mimeType := some "text/plain" } ∧
    some "other" ≠ some "hello" ∧
    (getContentSrc exCfg none { contentId := "C1" } exTextB).2.any isRawGet = true :=
  ⟨rfl, by decide, rfl⟩

/-- C1 amended: the guarded part_002 variant returns the typed text verbatim
with no raw download, while the src variant always attempts the raw download
and returns its body when that fetch succeeds with a truthy body. -/
theorem typed_text_priority_amended
    (cfg : ServerConfig) (dt : Option String) (args : GetContentArgs)
    (b : GetContentBackend) (r1 r2 r3 : FindResp) (rr : RawResp)
    (cdoc ddoc edoc : Doc) (rest rest2 rest3 : List Doc) (drid t : String)
    (hc : b.contentResp = .ok r1) (hok1 : r1.ok = true)
    (hd1 : r1.docs = some (cdoc :: rest))
    (hdrid : cdoc.dataResourceId = some drid) (hdridne : drid ≠ "")
    (hcd : b.drResp = .ok r2) (hok2 : r2.ok = true)
    (hd2 : r2.docs = some (ddoc :: rest2))
    (hty : ddoc.dataResourceTypeId = some "ELECTRONIC_TEXT" ∨
           ddoc.dataResourceTypeId = some "SHORT_TEXT")
    (hce : b.etResp = .ok r3) (hok3 : r3.ok = true)
    (hd3 : r3.docs = some (edoc :: rest3))
    (het : edoc.textData = some t) (htne : t ≠ "")
    (hrw : b.rawResp = .ok rr) (hrwok : rr.ok = true) (hbody : rr.body ≠ "") :
    ((getContentDl cfg dt args b).1.structuredContent =
        some { contentId := args.contentId, dataResourceId := some drid,
               textData := some t, mimeType := orUndef cdoc.mimeTypeId } ∧
      (getContentDl cfg dt args b).1.isError = false ∧
      (getContentDl cfg dt args b).2.any isRawGet = false) ∧
    ((getContentSrc cfg dt args b).1.structuredContent =
        some { contentId := args.contentId, dataResourceId := some drid,
               textData := some rr.body, mimeType := orUndef cdoc.mimeTypeId } ∧
      (getContentSrc cfg dt args b).2.any isRawGet = true) := by
  have htyb : (ddoc.dataResourceTypeId == some "ELECTRONIC_TEXT"
      || ddoc.dataResourceTypeId == some "SHORT_TEXT") = true := by
    rcases hty with h | h <;> simp [h]
  constructor
  · unfold getContentDl
    rw [hc]
    simp only [hok1, hd1, hdrid, hcd, hok2, hd2, htyb, hce, hok3, hd3, het,
      jsTruthy_some_ne drid hdridne, Bool.not_true, Bool.not_false,
      if_true, if_false, Bool.false_eq_true, ite_true, ite_false]
    unfold dlTail dlFallback
    simp [jsTruthy_some_ne t htne, orUndef, jsOrEmpty, gcFind, isRawGet,
      jsTruthy_some_ne drid hdridne]
  · unfold getContentSrc
    rw [hc]
    simp only [hok1, hd1, hdrid, hcd, hok2, hd2, htyb, hce, hok3, hd3, het,
      jsTruthy_some_ne drid hdridne, Bool.not_true, Bool.not_false,
      if_true, if_false, Bool.false_eq_true, ite_true, ite_false]
    unfold srcTail
    rw [hrw]
    simp [hrwok, jsTruthy_some_ne rr.body hbody, orUndef, jsOrEmpty, gcFind,
      isRawGet, jsTruthy_some_ne drid hdridne]

theorem typed_text_priority_amended_witness :
    ((getContentDl exCfg none { contentId := "C1" } exTextB).1.structuredContent =
        some { contentId := "C1", dataResourceId := some "D1",
               textData := some "hello", mimeType := orUndef (some "text/plain") } ∧
      (getContentDl exCfg none { contentId := "C1" } exTextB).1.isError = false ∧
      (getContentDl exCfg none { contentId := "C1" } exTextB).2.any isRawGet = false) ∧
    ((getContentSrc exCfg none { contentId := "C1" } exTextB).1.structuredContent =
        some { contentId := "C1", dataResourceId := some "D1",
               textData := some "other", mimeType := orUndef (some "text/plain") } ∧
      (getContentSrc exCfg none { contentId := "C1" } exTextB).2.any isRawGet = true) := by
  exact typed_text_priority_amended exCfg none { contentId := "C1" } exTextB
    _ _ _ _ _ _ _ _ _ _ "D1" "hello" rfl rfl rfl rfl (by decide) rfl rfl rfl
    (Or.inl rfl) rfl rfl rfl rfl (by decide) rfl rfl (by decide)

/-- C2 counterexample: in the src getContent variant an OFBIZ_FILE resource
takes the early metadata return: no raw download appears in the trace and
the invocation does not fail. -/
theorem getContentSrc_remote_file_no_download :
    (getContentSrc exCfg none { contentId := "C1" } exFileB).2.any isRawGet = false ∧
    (getContentSrc exCfg none { contentId := "C1" } exFileB).1.isError = false ∧
    (getContentSrc exCfg none { contentId := "C1" } exFileB).1.structuredContent =
      some { contentId := "C1", dataResourceId := some "D1",
             textData := some "[Remote File: /srv/f.csv]", mimeType := some "text/plain" } :=
  ⟨rfl, rfl, rfl⟩

/-- C2 amended: in the part_002 DownloadCsvFile variant, an OFBIZ_FILE or
LOCAL_FILE resource yields no typed text, so the authenticated raw download
is attempted, and when it yields no text the invocation fails with the
no-content error; the src variant instead returns remote-file metadata
without any download attempt. -/
theorem file_type_download_fallback_amended
    (cfg : ServerConfig) (dt : Option String) (args : GetContentArgs)
    (b : GetContentBackend) (r1 r2 : FindResp) (rr : RawResp)
    (cdoc ddoc : Doc) (rest rest2 : List Doc) (drid : String)
    (hc : b.contentResp = .ok r1) (hok1 : r1.ok = true)
    (hd1 : r1.docs = some (cdoc :: rest))
    (hdrid : cdoc.dataResourceId = some drid) (hdridne : drid ≠ "")
    (hcd : b.drResp = .ok r2) (hok2 : r2.ok = true)
    (hd2 : r2.docs = some (ddoc :: rest2))
    (hty : ddoc.dataResourceTypeId = some "OFBIZ_FILE" ∨
           ddoc.dataResourceTypeId = some "LOCAL_FILE")
    (hrw : b.rawResp = .ok rr) (hrwfail : rr.ok = false) :
    (getContentDl cfg dt args b).2.any isRawGet = true ∧
    (getContentDl cfg dt args b).1 =
      errRes ("No text content found for contentId: " ++ args.contentId
        ++ " (Type: " ++ jsToStr ddoc.dataResourceTypeId ++ ")") := by
  have htyb : (ddoc.dataResourceTypeId == some "ELECTRONIC_TEXT"
      || ddoc.dataResourceTypeId == some "SHORT_TEXT") = false := by
    rcases hty with h | h <;> simp [h]
  unfold getContentDl
  rw [hc]
  simp only [hok1, hd1, hdrid, hcd, hok2, hd2, htyb,
    jsTruthy_some_ne drid hdridne, Bool.not_true, Bool.not_false,
    if_true, if_false, Bool.false_eq_true, ite_true, ite_false]
  unfold dlTail dlFallback
  rw [hrw]
  simp [hrwfail, jsTruthy_some_empty, isRawGet, gcFind]

theorem file_type_download_fallback_amended_witness :
    (getContentDl exCfg none { contentId := "C1" } exFileFailB).2.any isRawGet = true ∧
    (getContentDl exCfg none { contentId := "C1" } exFileFailB).1 =
      errRes ("No text content found for contentId: " ++ "C1"
        ++ " (Type: " ++ jsToStr (some "OFBIZ_FILE") ++ ")") := by
  exact file_type_download_fallback_amended exCfg none { contentId := "C1" } exFileFailB
    { ok := true, status := 200,
      docs := some [{ dataResourceId := some "D1", mimeTypeId := some "text/plain" }] }
    { ok := true, status := 200,
      docs := some [{ dataResourceTypeId := some "OFBIZ_FILE", objectInfo := some "/srv/f.csv" }] }
    { ok := false, status := 403, body := "" }
    { dataResourceId := some "D1", mimeTypeId := some "text/plain" }
    { dataResourceTypeId := some "OFBIZ_FILE", objectInfo := some "/srv/f.csv" }
    [] [] "D1" rfl rfl rfl rfl (by decide) rfl rfl rfl (Or.inl rfl) rfl rfl

/-- C5 counterexample: with neither token present, the src getContent
handler still sends an Authorization header whose value is the empty string
(the key is present, not absent). -/
theorem getContent_empty_auth_header_present :
    (getContentSrc exCfgNoTok none { contentId := "C1" } exEmptyB).2 =
      [BackendCall.find "Content" [("contentId", "C1")] 1 (some "") ""] ∧
    (some "" : Option String) ≠ none :=
  ⟨rfl, by decide⟩

/-- A trace in which every call carries one fixed header value has a present
header on every call. -/
lemma allAuthPresent_of_authAll (l : List BackendCall) (v : String)
    (h : authAll l (some v) = true) : allAuthPresent l = true := by
  induction l with
  | nil => rfl
  | cons c cs ih =>
    simp only [authAll, List.all_cons, Bool.and_eq_true, beq_iff_eq] at h
    simp only [allAuthPresent, List.all_cons, Bool.and_eq_true]
    exact ⟨by simp [h.1], ih (by simp [authAll, h.2])⟩

/-- getLogById always issues exactly its one DataManagerLog find call. -/
lemma getLogById_trace (cfg : ServerConfig) (dt : Option String)
    (logId : String) (resp : Except String FindResp) :
    (getLogById cfg dt logId resp).2 =
      [BackendCall.find "DataManagerLog" [("logId", logId)] 1
        (condAuth dt cfg.BACKEND_ACCESS_TOKEN) (jsOrEmpty cfg.BACKEND_USER_AGENT)] := by
  unfold getLogById
  repeat' (first | split | dsimp only)

/-- With no tokens at all the conditional header is absent. -/
lemma condAuth_none : condAuth none none = none := by decide

/-- With no tokens at all the ternary header value is the empty string. -/
lemma ternaryAuth_none : ternaryAuth none none = "" := by decide

/-- Every call of the src getContent handler has a present Authorization
header, and at least one call is always issued. -/
lemma getContentSrc_header_attempt (cfg : ServerConfig) (dt : Option String)
    (args : GetContentArgs) (b : GetContentBackend) :
    allAuthPresent (getContentSrc cfg dt args b).2 = true ∧
    (getContentSrc cfg dt args b).2 ≠ [] := by
  unfold getContentSrc
  cases hcr : b.contentResp with
  | error e => simp [allAuthPresent, gcFind, BackendCall.auth, List.all_append]
  | ok r1 =>
    cases hok1 : r1.ok with
    | false => simp [allAuthPresent, gcFind, BackendCall.auth, List.all_append, hok1]
    | true =>
      cases hd1 : r1.docs with
      | none => simp [allAuthPresent, gcFind, BackendCall.auth, List.all_append, hok1, hd1]
      | some l1 =>
        cases l1 with
        | nil => simp [allAuthPresent, gcFind, BackendCall.auth, List.all_append, hok1, hd1]
        | cons cdoc rest =>
          cases hdr : jsTruthy cdoc.dataResourceId with
          | false => simp [allAuthPresent, gcFind, BackendCall.auth, List.all_append, hok1, hd1, hdr]
          | true =>
            cases hcd : b.drResp with
            | error e => simp [allAuthPresent, gcFind, BackendCall.auth, List.all_append, hok1, hd1, hdr, hcd]
            | ok r2 =>
              cases hok2 : r2.ok with
              | false => simp [allAuthPresent, gcFind, BackendCall.auth, List.all_append, hok1, hd1, hdr, hcd, hok2]
              | true =>
                cases hd2 : r2.docs with
                | none => simp [allAuthPresent, gcFind, BackendCall.auth, List.all_append, hok1, hd1, hdr, hcd, hok2, hd2]
                | some l2 =>
                  cases l2 with
                  | nil => simp [allAuthPresent, gcFind, BackendCall.auth, List.all_append, hok1, hd1, hdr, hcd, hok2, hd2]
                  | cons ddoc rest2 =>
                    cases hty1 : (ddoc.dataResourceTypeId == some "ELECTRONIC_TEXT"
                        || ddoc.dataResourceTypeId == some "SHORT_TEXT") with
                    | true =>
                      cases hce : b.etResp with
                      | error e => simp [allAuthPresent, gcFind, BackendCall.auth, List.all_append, hok1, hd1, hdr, hcd, hok2, hd2, hty1, hce]
                      | ok r3 =>
                        simp only [hok1, hd1, hdr, hcd, hok2, hd2, hty1, hce, Bool.not_true, Bool.not_false, if_true, if_false, Bool.false_eq_true, ite_true, ite_false]
                        rw [srcTail_trace]
                        simp [allAuthPresent, gcFind, BackendCall.auth, List.all_append]
                    | false =>
                      cases hty2 : (ddoc.dataResourceTypeId == some "OFBIZ_FILE"
                          || ddoc.dataResourceTypeId == some "LOCAL_FILE") with
                      | true => simp [allAuthPresent, gcFind, BackendCall.auth, List.all_append, hok1, hd1, hdr, hcd, hok2, hd2, hty1, hty2]
                      | false =>
                        simp only [hok1, hd1, hdr, hcd, hok2, hd2, hty1, hty2, Bool.not_true, Bool.not_false, if_true, if_false, Bool.false_eq_true, ite_true, ite_false]
                        rw [srcTail_trace]
                        simp [allAuthPresent, gcFind, BackendCall.auth, List.all_append]

/-- Every call of the part_002 getContent handler has a present
Authorization header, and at least one call is always issued. -/
lemma getContentDl_header_attempt (cfg : ServerConfig) (dt : Option String)
    (args : GetContentArgs) (b : GetContentBackend) :
    allAuthPresent (getContentDl cfg dt args b).2 = true ∧
    (getContentDl cfg dt args b).2 ≠ [] := by
  unfold getContentDl
  cases hcr : b.contentResp with
  | error e => simp [allAuthPresent, gcFind, BackendCall.auth, List.all_append]
  | ok r1 =>
    cases hok1 : r1.ok with
    | false => simp [allAuthPresent, gcFind, BackendCall.auth, List.all_append, hok1]
    | true =>
      cases hd1 : r1.docs with
      | none => simp [allAuthPresent, gcFind, BackendCall.auth, List.all_append, hok1, hd1]
      | some l1 =>
        cases l1 with
        | nil => simp [allAuthPresent, gcFind, BackendCall.auth, List.all_append, hok1, hd1]
        | cons cdoc rest =>
          cases hdr : jsTruthy cdoc.dataResourceId with
          | false => simp [allAuthPresent, gcFind, BackendCall.auth, List.all_append, hok1, hd1, hdr]
          | true =>
            cases hcd : b.drResp with
            | error e => simp [allAuthPresent, gcFind, BackendCall.auth, List.all_append, hok1, hd1, hdr, hcd]
            | ok r2 =>
              cases hok2 : r2.ok with
              | false => simp [allAuthPresent, gcFind, BackendCall.auth, List.all_append, hok1, hd1, hdr, hcd, hok2]
              | true =>
                cases hd2 : r2.docs with
                | none => simp [allAuthPresent, gcFind, BackendCall.auth, List.all_append, hok1, hd1, hdr, hcd, hok2, hd2]
                | some l2 =>
                  cases l2 with
                  | nil => simp [allAuthPresent, gcFind, BackendCall.auth, List.all_append, hok1, hd1, hdr, hcd, hok2, hd2]
                  | cons ddoc rest2 =>
                    cases hty1 : (ddoc.dataResourceTypeId == some "ELECTRONIC_TEXT"
                        || ddoc.dataResourceTypeId == some "SHORT_TEXT") with
                    | true =>
                      cases hce : b.etResp with
                      | error e => simp [allAuthPresent, gcFind, BackendCall.auth, List.all_append, hok1, hd1, hdr, hcd, hok2, hd2, hty1, hce]
                      | ok r3 =>
                        simp only [hok1, hd1, hdr, hcd, hok2, hd2, hty1, hce, Bool.not_true, Bool.not_false, if_true, if_false, Bool.false_eq_true, ite_true, ite_false]
                        rw [dlTail_trace, dlFallback_trace]
                        constructor
                        · repeat' split
                          all_goals simp [allAuthPresent, gcFind, BackendCall.auth, List.all_append]
                        · repeat' split
                          all_goals simp
                    | false =>
                      simp only [hok1, hd1, hdr, hcd, hok2, hd2, hty1, Bool.not_true, Bool.not_false, if_true, if_false, Bool.false_eq_true, ite_true, ite_false]
                      rw [dlTail_trace, dlFallback_trace]
                      constructor
                      · repeat' split
                        all_goals simp [allAuthPresent, gcFind, BackendCall.auth, List.all_append]
                      · repeat' split
                        all_goals simp

/-- Every call of the part_003 getContent handler has a present
Authorization header, and at least one call is always issued. -/
lemma getContentPersist_header_attempt (cfg : ServerConfig) (dt : Option String)
    (args : GetContentArgs) (b : GetContentBackend) (fs : FsEnv) :
    allAuthPresent (getContentPersist cfg dt args b fs).2 = true ∧
    (getContentPersist cfg dt args b fs).2 ≠ [] := by
  unfold getContentPersist
  cases hcr : b.contentResp with
  | error e => simp [allAuthPresent, gcFind, BackendCall.auth, List.all_append]
  | ok r1 =>
    cases hok1 : r1.ok with
    | false => simp [allAuthPresent, gcFind, BackendCall.auth, List.all_append, hok1]
    | true =>
      cases hd1 : r1.docs with
      | none => simp [allAuthPresent, gcFind, BackendCall.auth, List.all_append, hok1, hd1]
      | some l1 =>
        cases l1 with
        | nil => simp [allAuthPresent, gcFind, BackendCall.auth, List.all_append, hok1, hd1]
        | cons cdoc rest =>
          cases hdr : jsTruthy cdoc.dataResourceId with
          | false => simp [allAuthPresent, gcFind, BackendCall.auth, List.all_append, hok1, hd1, hdr]
          | true =>
            cases hcd : b.drResp with
            | error e => simp [allAuthPresent, gcFind, BackendCall.auth, List.all_append, hok1, hd1, hdr, hcd]
            | ok r2 =>
              cases hok2 : r2.ok with
              | false => simp [allAuthPresent, gcFind, BackendCall.auth, List.all_append, hok1, hd1, hdr, hcd, hok2]
              | true =>
                cases hd2 : r2.docs with
                | none => simp [allAuthPresent, gcFind, BackendCall.auth, List.all_append, hok1, hd1, hdr, hcd, hok2, hd2]
                | some l2 =>
                  cases l2 with
                  | nil => simp [allAuthPresent, gcFind, BackendCall.auth, List.all_append, hok1, hd1, hdr, hcd, hok2, hd2]
                  | cons ddoc rest2 =>
                    cases hty1 : (ddoc.dataResourceTypeId == some "ELECTRONIC_TEXT"
                        || ddoc.dataResourceTypeId == some "SHORT_TEXT") with
                    | true =>
                      cases hce : b.etResp with
                      | error e => simp [allAuthPresent, gcFind, BackendCall.auth, List.all_append, hok1, hd1, hdr, hcd, hok2, hd2, hty1, hce]
                      | ok r3 =>
                        simp only [hok1, hd1, hdr, hcd, hok2, hd2, hty1, hce, Bool.not_true, Bool.not_false, if_true, if_false, Bool.false_eq_true, ite_true, ite_false]
                        rw [persistTail_trace, dlFallback_trace]
                        constructor
                        · repeat' split
                          all_goals simp [allAuthPresent, gcFind, BackendCall.auth, List.all_append]
                        · repeat' split
                          all_goals simp
                    | false =>
                      simp only [hok1, hd1, hdr, hcd, hok2, hd2, hty1, Bool.not_true, Bool.not_false, if_true, if_false, Bool.false_eq_true, ite_true, ite_false]
                      rw [persistTail_trace, dlFallback_trace]
                      constructor
                      · repeat' split
                        all_goals simp [allAuthPresent, gcFind, BackendCall.auth, List.all_append]
                      · repeat' split
                        all_goals simp

/-- findOrderItems with a nonempty order id always issues its one find call. -/
lemma findOrderItems_trace (cfg : ServerConfig) (dt : Option String)
    (orderId : String) (resp : Except String FindResp) (hne : orderId ≠ "") :
    (findOrderItems cfg dt orderId resp).2 =
      [BackendCall.find "OrderItem" [("orderId", orderId)] 100
        (some (ternaryAuth dt cfg.BACKEND_ACCESS_TOKEN)) (jsOrEmpty cfg.BACKEND_USER_AGENT)] := by
  unfold findOrderItems
  simp only [isEmpty_false_of_ne orderId hne, Bool.false_eq_true, if_false]
  repeat' (first | split | dsimp only)

/-- findProductById always issues at least its first find call, and every
call has a present Authorization header. -/
lemma findProductById_header_attempt (cfg : ServerConfig) (dt : Option String)
    (id : String) (b : ProductBackend) :
    allAuthPresent (findProductById cfg dt id b).2 = true ∧
    (findProductById cfg dt id b).2 ≠ [] := by
  unfold findProductById
  repeat' (first | split | dsimp only)
  all_goals simp [allAuthPresent, BackendCall.auth]

/-- C5 amended: with neither a delegated nor a configured token, getLogById
attaches no Authorization header at all while the ternary-style handlers
always attach the key (empty-valued on find calls); in both styles the
backend request is still attempted. -/
theorem no_token_header_amended
    (base : String) (ua : Option String) (args : GetContentArgs)
    (b : GetContentBackend) (fs : FsEnv) (logId orderId id : String)
    (lresp iresp : Except String FindResp) (pb : ProductBackend)
    (hne : orderId ≠ "") :
    (authAll (getLogById (noTokCfg base ua) none logId lresp).2 none = true ∧
      (getLogById (noTokCfg base ua) none logId lresp).2 ≠ []) ∧
    (allAuthPresent (getContentSrc (noTokCfg base ua) none args b).2 = true ∧
      (getContentSrc (noTokCfg base ua) none args b).2 ≠ []) ∧
    (allAuthPresent (getContentDl (noTokCfg base ua) none args b).2 = true ∧
      (getContentDl (noTokCfg base ua) none args b).2 ≠ []) ∧
    (allAuthPresent (getContentPersist (noTokCfg base ua) none args b fs).2 = true ∧
      (getContentPersist (noTokCfg base ua) none args b fs).2 ≠ []) ∧
    (allAuthPresent (findOrderItems (noTokCfg base ua) none orderId iresp).2 = true ∧
      (findOrderItems (noTokCfg base ua) none orderId iresp).2 ≠ []) ∧
    (allAuthPresent (findProductById (noTokCfg base ua) none id pb).2 = true ∧
      (findProductById (noTokCfg base ua) none id pb).2 ≠ []) := by
  refine ⟨⟨?_, ?_⟩, getContentSrc_header_attempt _ _ _ _,
    getContentDl_header_attempt _ _ _ _, getContentPersist_header_attempt _ _ _ _ _,
    ⟨?_, ?_⟩, findProductById_header_attempt _ _ _ _⟩
  · have hgen := getLogById_authAll
      { BACKEND_API_BASE := base, BACKEND_ACCESS_TOKEN := none, BACKEND_USER_AGENT := ua }
      none logId lresp
    simpa [condAuth_none] using hgen
  · rw [getLogById_trace]
    simp
  · have hgen := findOrderItems_authAll
      { BACKEND_API_BASE := base, BACKEND_ACCESS_TOKEN := none, BACKEND_USER_AGENT := ua }
      none orderId iresp
    exact allAuthPresent_of_authAll _ _ hgen
  · rw [findOrderItems_trace _ _ _ _ hne]
    simp

theorem no_token_header_amended_witness :
    (authAll (getLogById (noTokCfg "https://b" none) none "40160"
        (.ok { ok := true, status := 200, docs := some [] })).2 none = true ∧
      (getLogById (noTokCfg "https://b" none) none "40160"
        (.ok { ok := true, status := 200, docs := some [] })).2 ≠ []) ∧
    (allAuthPresent (getContentSrc (noTokCfg "https://b" none) none { contentId := "C1" } exEmptyB).2 = true ∧
      (getContentSrc (noTokCfg "https://b" none) none { contentId := "C1" } exEmptyB).2 ≠ []) ∧
    (allAuthPresent (getContentDl (noTokCfg "https://b" none) none { contentId := "C1" } exEmptyB).2 = true ∧
      (getContentDl (noTokCfg "https://b" none) none { contentId := "C1" } exEmptyB).2 ≠ []) ∧
    (allAuthPresent (getContentPersist (noTokCfg "https://b" none) none { contentId := "C1" } exEmptyB exFs).2 = true ∧
      (getContentPersist (noTokCfg "https://b" none) none { contentId := "C1" } exEmptyB exFs).2 ≠ []) ∧
    (allAuthPresent (findOrderItems (noTokCfg "https://b" none) none "1001"
        (.ok { ok := true, status := 200, docs := some [] })).2 = true ∧
      (findOrderItems (noTokCfg "https://b" none) none "1001"
        (.ok { ok := true, status := 200, docs := some [] })).2 ≠ []) ∧
    (allAuthPresent (findProductById (noTokCfg "https://b" none) none "P1" exProdB).2 = true ∧
      (findProductById (noTokCfg "https://b" none) none "P1" exProdB).2 ≠ []) := by
  exact no_token_header_amended "https://b" none { contentId := "C1" } exEmptyB exFs
    "40160" "1001" "P1" (.ok { ok := true, status := 200, docs := some [] })
    (.ok { ok := true, status := 200, docs := some [] }) exProdB (by decide)

/-- C6 counterexample: in the persistence variant, with the text already
retrieved ("hello") and persistence requested, a failing file write turns
the whole invocation into the Error variant instead of leaving the success
outcome intact. -/
theorem persist_write_failure_changes_outcome :
    (getContentPersist exCfg none { contentId := "C1", configId := some "CFG" }
      exTextB exFsBad).1 = catchRes "disk full" ∧
    (getContentPersist exCfg none { contentId := "C1", configId := some "CFG" }
      exTextB exFsBad).1.isError = true :=
  ⟨rfl, rfl⟩

/-- C6 amended: when text was retrieved and persistence was requested, the
missing-anchor case is skipped without failing (success with no savedPath),
but a rejected directory-creation/write propagates to the outer catch and
the invocation reports the Error variant. -/
theorem persistence_failure_amended
    (cfg : ServerConfig) (dt : Option String) (args : GetContentArgs)
    (b : GetContentBackend) (fs1 fs2 : FsEnv) (rd e : String)
    (r1 r2 r3 : FindResp) (cdoc ddoc edoc : Doc)
    (rest rest2 rest3 : List Doc) (drid t : String)
    (hcfgid : jsTruthy args.configId = true)
    (hc : b.contentResp = .ok r1) (hok1 : r1.ok = true)
    (hd1 : r1.docs = some (cdoc :: rest))
    (hdrid : cdoc.dataResourceId = some drid) (hdridne : drid ≠ "")
    (hcd : b.drResp = .ok r2) (hok2 : r2.ok = true)
    (hd2 : r2.docs = some (ddoc :: rest2))
    (hty : ddoc.dataResourceTypeId = some "ELECTRONIC_TEXT" ∨
           ddoc.dataResourceTypeId = some "SHORT_TEXT")
    (hce : b.etResp = .ok r3) (hok3 : r3.ok = true)
    (hd3 : r3.docs = some (edoc :: rest3))
    (het : edoc.textData = some t) (htne : t ≠ "")
    (h1 : fs1.runtimeDir = none)
    (h2rd : fs2.runtimeDir = some rd) (h2ex : fs2.targetDirExists = false)
    (h2mk : fs2.mkdirResult = .ok ()) (h2wr : fs2.writeResult = .error e) :
    ((getContentPersist cfg dt args b fs1).1.isError = false ∧
      (getContentPersist cfg dt args b fs1).1.structuredContent =
        some { contentId := args.contentId, dataResourceId := some drid,
               textData := some t, mimeType := orUndef cdoc.mimeTypeId,
               savedPath := none }) ∧
    (getContentPersist cfg dt args b fs2).1 = catchRes e := by
  have htyb : (ddoc.dataResourceTypeId == some "ELECTRONIC_TEXT"
      || ddoc.dataResourceTypeId == some "SHORT_TEXT") = true := by
    rcases hty with h | h <;> simp [h]
  constructor
  · unfold getContentPersist
    rw [hc]
    simp only [hok1, hd1, hdrid, hcd, hok2, hd2, htyb, hce, hok3, hd3, het,
      jsTruthy_some_ne drid hdridne, Bool.not_true, Bool.not_false,
      if_true, if_false, Bool.false_eq_true, ite_true, ite_false]
    unfold persistTail dlFallback persistStep
    rw [h1]
    simp [jsTruthy_some_ne t htne, hcfgid, orUndef, jsOrEmpty,
      jsTruthy_some_ne drid hdridne]
  · unfold getContentPersist
    rw [hc]
    simp only [hok1, hd1, hdrid, hcd, hok2, hd2, htyb, hce, hok3, hd3, het,
      jsTruthy_some_ne drid hdridne, Bool.not_true, Bool.not_false,
      if_true, if_false, Bool.false_eq_true, ite_true, ite_false]
    unfold persistTail dlFallback persistStep
    rw [h2rd]
    simp [jsTruthy_some_ne t htne, hcfgid, h2ex, h2mk, h2wr]

theorem persistence_failure_amended_witness :
    ((getContentPersist exCfg none { contentId := "C1", configId := some "CFG" }
        exTextB exFs).1.isError = false ∧
      (getContentPersist exCfg none { contentId := "C1", configId := some "CFG" }
        exTextB exFs).1.structuredContent =
        some { contentId := "C1", dataResourceId := some "D1",
               textData := some "hello", mimeType := orUndef (some "text/plain"),
               savedPath := none }) ∧
    (getContentPersist exCfg none { contentId := "C1", configId := some "CFG" }
      exTextB exFsBad).1 = catchRes "disk full" := by
  exact persistence_failure_amended exCfg none
    { contentId := "C1", configId := some "CFG" } exTextB exFs exFsBad
    "/rt" "disk full"
    { ok := true, status := 200,
      docs := some [{ dataResourceId := some "D1", mimeTypeId := some "text/plain" }] }
    { ok := true, status := 200,
      docs := some [{ dataResourceTypeId := some "ELECTRONIC_TEXT" }] }
    { ok := true, status := 200, docs := some [{ textData := some "hello" }] }
    { dataResourceId := some "D1", mimeTypeId := some "text/plain" }
    { dataResourceTypeId := some "ELECTRONIC_TEXT" }
    { textData := some "hello" }
    [] [] [] "D1" "hello"
    (by decide) rfl rfl rfl rfl (by decide) rfl rfl rfl (Or.inl rfl)
    rfl rfl rfl rfl (by decide) rfl rfl rfl rfl rfl
